import Mathlib

/-! XR-Toolkit: interaction selection, start/stop protocol and grab.

A shallow embedding of the XR-Toolkit plugin.

* `UXRInteractionGrab` (`XRInteractionGrab.cpp`) is translated from its source.  A null
  pointer dereference is modelled as the result `none`.
* `UXRInteractorComponent` and the base `UXRInteractionComponent` are only declared in the
  headers; their method bodies are modelled from the specification and from the
  documentation comments of the declarations.
* Host-engine services (attachment, constraints, object creation, authority) are modelled by
  their documented effect on the fields the plugin reads back.

Replication is modelled on one machine: a server call followed by its multicast runs
synchronously on the single world copy.
-/

namespace XRToolkit

/-! ## Engine value types -/

abbrev InteractorId := Nat
abbrev InteractionId := Nat
abbrev ActorId := Nat
abbrev MeshId := Nat

/-- Engine vector, with integer coordinates. -/
structure FVector where
  X : Int := 0
  Y : Int := 0
  Z : Int := 0
deriving DecidableEq

/-- Componentwise sum of two vectors. -/
def FVector.add (a b : FVector) : FVector :=
  { X := a.X + b.X, Y := a.Y + b.Y, Z := a.Z + b.Z }

/-- Componentwise difference of two vectors. -/
def FVector.sub (a b : FVector) : FVector :=
  { X := a.X - b.X, Y := a.Y - b.Y, Z := a.Z - b.Z }

/-- Squared Euclidean distance; it orders points exactly as the Euclidean distance does. -/
def FVector.DistSquared (a b : FVector) : Int :=
  (a.X - b.X) * (a.X - b.X) + (a.Y - b.Y) * (a.Y - b.Y) + (a.Z - b.Z) * (a.Z - b.Z)

/-- Engine transform: the three channels an attachment rule is chosen for. -/
structure FTransform where
  Location : FVector := {}
  Rotation : FVector := {}
  Scale : FVector := {}
deriving DecidableEq

/-- Engine enumeration `EAttachmentRule`. -/
inductive EAttachmentRule where
  | KeepRelative
  | KeepWorld
  | SnapToTarget
deriving DecidableEq

/-- Engine type `FAttachmentTransformRules`: one rule per channel and the weld flag. -/
structure FAttachmentTransformRules where
  LocationRule : EAttachmentRule
  RotationRule : EAttachmentRule
  ScaleRule : EAttachmentRule
  bWeldSimulatedBodies : Bool
deriving DecidableEq

/-- Engine enumeration `EDetachmentRule`. -/
inductive EDetachmentRule where
  | KeepRelative
  | KeepWorld
deriving DecidableEq

/-- Engine type `FDetachmentTransformRules`. -/
structure FDetachmentTransformRules where
  LocationRule : EDetachmentRule
  RotationRule : EDetachmentRule
  ScaleRule : EDetachmentRule
  bCallModify : Bool
deriving DecidableEq

/-- World value of one channel after attaching under a rule: kept, recomputed from the
relative value, or snapped onto the parent. -/
def EAttachmentRule.world (r : EAttachmentRule) (childWorld childRelative parentWorld : FVector) :
    FVector :=
  match r with
  | .KeepWorld => childWorld
  | .KeepRelative => parentWorld.add childRelative
  | .SnapToTarget => parentWorld

/-- Relative value of one channel after attaching under a rule. -/
def EAttachmentRule.relative (r : EAttachmentRule)
    (childWorld childRelative parentWorld : FVector) : FVector :=
  match r with
  | .KeepWorld => childWorld.sub parentWorld
  | .KeepRelative => childRelative
  | .SnapToTarget => {}

/-- World value of one channel after detaching under a rule: kept, or the former relative
value read as a world value. -/
def EDetachmentRule.world (r : EDetachmentRule) (childWorld childRelative : FVector) : FVector :=
  match r with
  | .KeepWorld => childWorld
  | .KeepRelative => childRelative

/-! ## Components -/

/-- What the delegates of an interaction have broadcast. -/
inductive XRInteractionEvent where
  | InteractionStarted (XRInteractorComponent : Option InteractorId)
  | InteractionEnded (XRInteractorComponent : Option InteractorId)
  | InteractionHovered (HoveringXRInteractor : Option InteractorId) (bHovered : Bool)
deriving DecidableEq

/-- The fields of `UXRInteractionComponent` the modelled operations read or write
(`XRInteractionComponent.h`), with the defaults of the header, the hover state that
`HoverInteraction` sets (the header keeps it in the highlight, not in a member of its own), and
the log of its delegates (oldest broadcast first). -/
structure UXRInteractionComponent where
  InteractionPriority : Int := 1
  bIsContinuousInteraction : Bool := true
  bAllowTakeOver : Bool := true
  bIsInteractionActive : Bool := false
  ActiveInteractor : Option InteractorId := none
  bHoverState : Bool := false
  Broadcasts : List XRInteractionEvent := []
deriving DecidableEq

/-- What the delegates of an interactor have broadcast. -/
inductive XRInteractorEvent where
  | StartedInteracting (XRInteractionComponent : InteractionId)
  | StoppedInteracting (XRInteractionComponent : InteractionId)
  | HoverStateChanged (HoveredXRInteractionComponent : InteractionId) (bHoverState : Bool)
deriving DecidableEq

/-- Engine component `UPhysicsConstraintComponent`: the pair of components it couples and
whether the constraint is currently formed. -/
structure UPhysicsConstraintComponent where
  ConstrainedComponents : Option (InteractorId × MeshId) := none
  bConstraintFormed : Bool := false
deriving DecidableEq

/-- The fields of `UXRInteractorComponent` (`XRInteractorComponent.h`) the modelled operations
read or write, its world transform, the actors its colliders overlap, and the log of its
delegates (oldest broadcast first). -/
structure UXRInteractorComponent where
  ComponentToWorld : FTransform := {}
  OverlappingActors : List ActorId := []
  PhysicsConstraint : Option UPhysicsConstraintComponent := none
  ActiveInteractionComponents : List InteractionId := []
  HoveredInteractionComponents : List InteractionId := []
  Broadcasts : List XRInteractorEvent := []
deriving DecidableEq

/-- Engine component `UMeshComponent`: its tags and its simulate-physics setting. -/
structure UMeshComponent where
  ComponentTags : List String := []
  bSimulatePhysics : Bool := false
deriving DecidableEq

/-- Modelled from the spec: the class `UXRReplicatedPhysicsComponent` (the
physics-replication helper), whose header and body are absent.  It carries the
server-replicate-physics flag, the cached physics meshes (a cached entry may be null) and its
registration and activation state. -/
structure UXRReplicatedPhysicsComponent where
  bServerReplicatePhysics : Bool := false
  PhysicsMeshComponents : List (Option MeshId) := []
  bRegistered : Bool := false
  bIsActive : Bool := false
deriving DecidableEq

/-- Engine class `AActor`: authority, transform and attachment, its mesh components (a
`MeshId` is a position in `MeshComponents`), its helper components of class
`UXRReplicatedPhysicsComponent` in the order `FindComponentByClass` visits them, and its
interaction components. -/
structure AActor where
  bHasAuthority : Bool := true
  WorldTransform : FTransform := {}
  RelativeTransform : FTransform := {}
  AttachParent : Option InteractorId := none
  RootMesh : Option MeshId := none
  MeshComponents : List UMeshComponent := []
  ReplicatedPhysicsComponents : List UXRReplicatedPhysicsComponent := []
  XRInteractionComponents : List InteractionId := []
deriving DecidableEq

/-- The class `UXRInteractionGrab` (`XRInteractionGrab.h`): the base fields, the two
configuration properties and the helper pointer, which is null or a position in the owner's
`ReplicatedPhysicsComponents`. -/
structure UXRInteractionGrab extends UXRInteractionComponent where
  bEnablePhysics : Bool := true
  PhysicsTag : String := "XRPhysics"
  XRReplicatedPhysicsComponent : Option Nat := none
deriving DecidableEq

/-- Everything a grab can reach: itself, its owning actor (`GetOwner()`, which may be null)
and the interactors. -/
structure GrabWorld where
  Grab : UXRInteractionGrab := {}
  Owner : Option AActor := none
  Interactors : InteractorId → UXRInteractorComponent := fun _ => {}

/-! ## Base interaction (bodies absent from the sources) -/

/-- Modelled from the spec: `UXRInteractionComponent::IsInteractionActive`, body absent; the
header says it "returns true if this is a continuous interaction and it is currently
ongoing". -/
def UXRInteractionComponent.IsInteractionActive (x : UXRInteractionComponent) : Bool :=
  x.bIsContinuousInteraction && x.bIsInteractionActive

/-- Modelled from the spec: `UXRInteractionComponent::SetActiveInteractor`, body absent; it
"sets the active interactor if this is a continuous interaction", and the active flag is true
exactly when the reference is non-null. -/
def UXRInteractionComponent.SetActiveInteractor (InInteractor : Option InteractorId)
    (x : UXRInteractionComponent) : UXRInteractionComponent :=
  if x.bIsContinuousInteraction then
    { x with ActiveInteractor := InInteractor, bIsInteractionActive := InInteractor.isSome }
  else x

/-- Modelled from the spec: the base `UXRInteractionComponent::StartInteraction`, body absent;
it raises the started notification and, for a continuous interaction, records the holder. -/
def UXRInteractionComponent.StartInteraction (InInteractor : Option InteractorId)
    (x : UXRInteractionComponent) : UXRInteractionComponent :=
  let x1 := x.SetActiveInteractor InInteractor
  { x1 with Broadcasts := x1.Broadcasts ++ [.InteractionStarted InInteractor] }

/-- Modelled from the spec: the base `UXRInteractionComponent::EndInteraction`, body absent;
it raises the ended notification and, for a continuous interaction, clears the holder. -/
def UXRInteractionComponent.EndInteraction (InInteractor : Option InteractorId)
    (x : UXRInteractionComponent) : UXRInteractionComponent :=
  let x1 := x.SetActiveInteractor none
  { x1 with Broadcasts := x1.Broadcasts ++ [.InteractionEnded InInteractor] }

/-! ## Engine services used by the grab -/

/-- Engine call `AActor::AttachToComponent`: the actor gets the parent, and each channel of
its transform follows its rule. -/
def AActor.AttachToComponent (Parent : InteractorId) (ParentTransform : FTransform)
    (Rules : FAttachmentTransformRules) (a : AActor) : AActor :=
  { a with
    AttachParent := some Parent
    WorldTransform :=
      { Location := Rules.LocationRule.world a.WorldTransform.Location
          a.RelativeTransform.Location ParentTransform.Location
        Rotation := Rules.RotationRule.world a.WorldTransform.Rotation
          a.RelativeTransform.Rotation ParentTransform.Rotation
        Scale := Rules.ScaleRule.world a.WorldTransform.Scale
          a.RelativeTransform.Scale ParentTransform.Scale }
    RelativeTransform :=
      { Location := Rules.LocationRule.relative a.WorldTransform.Location
          a.RelativeTransform.Location ParentTransform.Location
        Rotation := Rules.RotationRule.relative a.WorldTransform.Rotation
          a.RelativeTransform.Rotation ParentTransform.Rotation
        Scale := Rules.ScaleRule.relative a.WorldTransform.Scale
          a.RelativeTransform.Scale ParentTransform.Scale } }

/-- Engine call `AActor::DetachFromActor`: the actor loses its parent, and each channel of its
transform follows its rule; without a parent the relative transform is the world one. -/
def AActor.DetachFromActor (Rules : FDetachmentTransformRules) (a : AActor) : AActor :=
  let w : FTransform :=
    { Location := Rules.LocationRule.world a.WorldTransform.Location a.RelativeTransform.Location
      Rotation := Rules.RotationRule.world a.WorldTransform.Rotation a.RelativeTransform.Rotation
      Scale := Rules.ScaleRule.world a.WorldTransform.Scale a.RelativeTransform.Scale }
  { a with AttachParent := none, WorldTransform := w, RelativeTransform := w }

/-- Engine call `AActor::FindComponentByClass<UXRReplicatedPhysicsComponent>`: the first
helper component of the actor, or null. -/
def AActor.FindComponentByClass (a : AActor) : Option Nat :=
  if a.ReplicatedPhysicsComponents.isEmpty then none else some 0

/-- Engine call `UPhysicsConstraintComponent::SetConstrainedComponents`. -/
def UPhysicsConstraintComponent.SetConstrainedComponents (Component1 : InteractorId)
    (Component2 : MeshId) (_c : UPhysicsConstraintComponent) : UPhysicsConstraintComponent :=
  { ConstrainedComponents := some (Component1, Component2), bConstraintFormed := true }

/-- Engine call `UPhysicsConstraintComponent::BreakConstraint`. -/
def UPhysicsConstraintComponent.BreakConstraint (c : UPhysicsConstraintComponent) :
    UPhysicsConstraintComponent :=
  { c with bConstraintFormed := false }

/-! ## The physics-replication helper (class absent from the sources) -/

/-- Sets the simulate-physics setting of the meshes whose position is listed. -/
def setSimulatePhysicsFrom (b : Bool) (ids : List (Option MeshId)) :
    Nat → List UMeshComponent → List UMeshComponent
  | _, [] => []
  | i, m :: ms =>
    (if some i ∈ ids then { m with bSimulatePhysics := b } else m) ::
      setSimulatePhysicsFrom b ids (i + 1) ms

/-- Positions, counted from `i`, of the meshes that carry the tag and are not the root. -/
def taggedMeshesFrom (Tag : String) (root : Option MeshId) :
    Nat → List UMeshComponent → List (Option MeshId)
  | _, [] => []
  | i, m :: ms =>
    if Tag ∈ m.ComponentTags ∧ root ≠ some i then
      some i :: taggedMeshesFrom Tag root (i + 1) ms
    else taggedMeshesFrom Tag root (i + 1) ms

/-- Modelled from the spec: `UXRReplicatedPhysicsComponent::CachePhysicsMeshComponents`, absent
from the sources.  The selection is "tag-driven"; the header of the grab adds that the root
mesh "is cached even without the tag".  The cache of helper `c` of `Owner` becomes the root
mesh followed by the tagged meshes. -/
def UXRReplicatedPhysicsComponent.CachePhysicsMeshComponents (Tag : String) (Owner : AActor)
    (c : UXRReplicatedPhysicsComponent) : UXRReplicatedPhysicsComponent :=
  { c with
    PhysicsMeshComponents :=
      (match Owner.RootMesh with
        | some r => [some r]
        | none => []) ++ taggedMeshesFrom Tag Owner.RootMesh 0 Owner.MeshComponents }

/-- Modelled from the spec: `UXRReplicatedPhysicsComponent::Server_SetServerReplicatePhysics`,
absent from the sources; run with authority it sets the server-replicate-physics flag. -/
def UXRReplicatedPhysicsComponent.Server_SetServerReplicatePhysics (b : Bool)
    (c : UXRReplicatedPhysicsComponent) : UXRReplicatedPhysicsComponent :=
  { c with bServerReplicatePhysics := b }

/-- Dereferences the helper pointer of the grab: null, or not a component of the owner, gives
`none`. -/
def GrabWorld.helper (g : GrabWorld) : Option UXRReplicatedPhysicsComponent :=
  match g.Owner, g.Grab.XRReplicatedPhysicsComponent with
  | some Owner, some i => Owner.ReplicatedPhysicsComponents[i]?
  | _, _ => none

/-- `XRReplicatedPhysicsComponent->Server_SetServerReplicatePhysics(b)` on the helper the grab
points to; `none` when the pointer cannot be dereferenced. -/
def GrabWorld.Server_SetServerReplicatePhysics (b : Bool) (g : GrabWorld) : Option GrabWorld :=
  match g.Owner, g.Grab.XRReplicatedPhysicsComponent with
  | some Owner, some i =>
    match Owner.ReplicatedPhysicsComponents[i]? with
    | some c =>
      some { g with
        Owner := some { Owner with
          ReplicatedPhysicsComponents :=
            Owner.ReplicatedPhysicsComponents.set i (c.Server_SetServerReplicatePhysics b) } }
    | none => none
  | _, _ => none

/-- Modelled from the spec: `XRReplicatedPhysicsComponent->SetComponentsSimulatePhysics(b)`,
absent from the sources: it sets the simulate-physics setting of every cached mesh of the
helper; `none` when the pointer cannot be dereferenced.  Only the setting is modelled, not
what the engine does further to a mesh that begins to simulate; with no cached mesh the call
acts on nothing. -/
def GrabWorld.SetComponentsSimulatePhysics (b : Bool) (g : GrabWorld) : Option GrabWorld :=
  match g.Owner, g.helper with
  | some Owner, some c =>
    some { g with
      Owner := some { Owner with
        MeshComponents := setSimulatePhysicsFrom b c.PhysicsMeshComponents 0 Owner.MeshComponents } }
  | _, _ => none

/-- Modelled from the spec: `XRReplicatedPhysicsComponent->GetPhysicsMeshComponents()`, absent
from the sources: the cached meshes; `none` when the pointer cannot be dereferenced. -/
def GrabWorld.GetPhysicsMeshComponents (g : GrabWorld) : Option (List (Option MeshId)) :=
  match g.helper with
  | some c => some c.PhysicsMeshComponents
  | none => none

/-! ## `UXRInteractionGrab` (`XRInteractionGrab.cpp`) -/

/-- `UXRInteractionGrab::AttachOwningActorToXRInteractor`. -/
def AttachOwningActorToXRInteractor (InInteractor : Option InteractorId) (g : GrabWorld) :
    Option GrabWorld :=
  match InInteractor with
  | some I =>
    let Rules : FAttachmentTransformRules :=
      { LocationRule := .KeepWorld, RotationRule := .KeepWorld, ScaleRule := .KeepWorld,
        bWeldSimulatedBodies := false }
    match g.Owner with
    | some Owner =>
      some { g with
        Owner := some (Owner.AttachToComponent I (g.Interactors I).ComponentToWorld Rules) }
    | none => none
  | none => some g

/-- `UXRInteractionGrab::DetachOwningActorFromXRInteractor`. -/
def DetachOwningActorFromXRInteractor (g : GrabWorld) : Option GrabWorld :=
  let Rules : FDetachmentTransformRules :=
    { LocationRule := .KeepWorld, RotationRule := .KeepWorld, ScaleRule := .KeepWorld,
      bCallModify := false }
  match g.Owner with
  | some Owner => some { g with Owner := some (Owner.DetachFromActor Rules) }
  | none => none

/-- `UXRInteractionGrab::PhysicsGrab`. -/
def PhysicsGrab (InInteractor : Option InteractorId) (g : GrabWorld) : Option GrabWorld :=
  match InInteractor with
  | some I =>
    match g.Owner with
    | none => none
    | some Owner =>
      (if Owner.bHasAuthority then g.Server_SetServerReplicatePhysics false else some g).bind
        fun g1 =>
      (AttachOwningActorToXRInteractor (some I) g1).bind fun g2 =>
      (g2.SetComponentsSimulatePhysics true).bind fun g3 =>
      g3.GetPhysicsMeshComponents.bind fun MeshComponents =>
      if MeshComponents.length > 0 then
        match MeshComponents.head? with
        | none => none
        | some PhysicsEnabledMesh =>
          let ActivePhysicsConstraint := (g3.Interactors I).PhysicsConstraint
          match ActivePhysicsConstraint, PhysicsEnabledMesh with
          | some c, some m =>
            some { g3 with
              Interactors := Function.update g3.Interactors I
                { g3.Interactors I with
                  PhysicsConstraint := some (c.SetConstrainedComponents I m) } }
          | _, _ => some g3
      else some g3
  | none => some g

/-- `UXRInteractionGrab::PhysicsUngrab`. -/
def PhysicsUngrab (InInteractor : Option InteractorId) (g : GrabWorld) : Option GrabWorld :=
  let g1 : GrabWorld :=
    match InInteractor with
    | some I =>
      match (g.Interactors I).PhysicsConstraint with
      | some c =>
        { g with
          Interactors := Function.update g.Interactors I
            { g.Interactors I with PhysicsConstraint := some c.BreakConstraint } }
      | none => g
    | none => g
  match g1.Owner with
  | none => none
  | some Owner =>
    if Owner.bHasAuthority then g1.Server_SetServerReplicatePhysics true else some g1

/-- `UXRInteractionGrab::InitializePhysics`.  `NewObject` is what the engine's object creation
returns: a helper in its constructed state, or null. -/
def InitializePhysics (NewObject : Option UXRReplicatedPhysicsComponent) (g : GrabWorld) :
    GrabWorld :=
  match g.Owner with
  | some Owner =>
    match Owner.FindComponentByClass with
    | some FoundXRPhysicsComponent =>
      { g with Grab := { g.Grab with XRReplicatedPhysicsComponent := some FoundXRPhysicsComponent } }
    | none =>
      match NewObject with
      | some c =>
        let c1 := { c with bRegistered := true }
        let c2 := { c1 with bIsActive := true }
        let c3 := c2.CachePhysicsMeshComponents g.Grab.PhysicsTag Owner
        let c4 := if Owner.bHasAuthority then c3.Server_SetServerReplicatePhysics true else c3
        { g with
          Grab := { g.Grab with
            XRReplicatedPhysicsComponent := some Owner.ReplicatedPhysicsComponents.length }
          Owner := some { Owner with
            ReplicatedPhysicsComponents := Owner.ReplicatedPhysicsComponents ++ [c4] } }
      | none => { g with Grab := { g.Grab with XRReplicatedPhysicsComponent := none } }
  | none => g

/-- `UXRInteractionGrab::BeginPlay`; the base `BeginPlay` touches none of the modelled
fields. -/
def BeginPlay (NewObject : Option UXRReplicatedPhysicsComponent) (g : GrabWorld) : GrabWorld :=
  if g.Grab.bEnablePhysics then InitializePhysics NewObject g else g

/-- `UXRInteractionGrab::GetPhysicsReplicationComponent`. -/
def GetPhysicsReplicationComponent (g : GrabWorld) : Option Nat :=
  g.Grab.XRReplicatedPhysicsComponent

/-- The call `Super::StartInteraction(InInteractor)` made by the grab. -/
def GrabWorld.SuperStartInteraction (InInteractor : Option InteractorId) (g : GrabWorld) :
    GrabWorld :=
  { g with
    Grab := { g.Grab with
      toUXRInteractionComponent :=
        g.Grab.toUXRInteractionComponent.StartInteraction InInteractor } }

/-- The call `Super::EndInteraction(InInteractor)` made by the grab. -/
def GrabWorld.SuperEndInteraction (InInteractor : Option InteractorId) (g : GrabWorld) :
    GrabWorld :=
  { g with
    Grab := { g.Grab with
      toUXRInteractionComponent :=
        g.Grab.toUXRInteractionComponent.EndInteraction InInteractor } }

/-- `UXRInteractionGrab::StartInteraction`. -/
def StartInteraction (InInteractor : Option InteractorId) (g : GrabWorld) : Option GrabWorld :=
  let g1 := g.SuperStartInteraction InInteractor
  if g1.Grab.bEnablePhysics then PhysicsGrab InInteractor g1
  else AttachOwningActorToXRInteractor InInteractor g1

/-- `UXRInteractionGrab::EndInteraction`. -/
def EndInteraction (InInteractor : Option InteractorId) (g : GrabWorld) : Option GrabWorld :=
  let g1 := g.SuperEndInteraction InInteractor
  if g1.Grab.bEnablePhysics then PhysicsUngrab InInteractor g1
  else DetachOwningActorFromXRInteractor g1


/-! ## Observations on a grab -/

/-- The server-replicate-physics flag of the helper the grab points to; `none` when the
pointer cannot be dereferenced. -/
def GrabWorld.replicateFlag (g : GrabWorld) : Option Bool :=
  g.helper.map fun c => c.bServerReplicatePhysics

/-- The constraint step of `PhysicsGrab`. -/
def coupledInteractors (I : InteractorId) (meshes : List (Option MeshId))
    (Interactors : InteractorId → UXRInteractorComponent) :
    InteractorId → UXRInteractorComponent :=
  match (Interactors I).PhysicsConstraint, meshes.head? with
  | some k, some (some m) =>
    Function.update Interactors I
      { Interactors I with PhysicsConstraint := some (k.SetConstrainedComponents I m) }
  | _, _ => Interactors

/-- The helper list of the owner after the authority-guarded flag write. -/
def helpersAfterWrite (b : Bool) (o : AActor) (i : Nat) (c : UXRReplicatedPhysicsComponent) :
    List UXRReplicatedPhysicsComponent :=
  if o.bHasAuthority then
    o.ReplicatedPhysicsComponents.set i (c.Server_SetServerReplicatePhysics b)
  else o.ReplicatedPhysicsComponents

/-- The rules `AttachOwningActorToXRInteractor` attaches with. -/
def grabAttachmentRules : FAttachmentTransformRules :=
  { LocationRule := .KeepWorld, RotationRule := .KeepWorld, ScaleRule := .KeepWorld,
    bWeldSimulatedBodies := false }

/-- The owner as `PhysicsGrab` leaves it. -/
def grabbedOwner (I : InteractorId) (parent : FTransform) (o : AActor) (i : Nat)
    (c : UXRReplicatedPhysicsComponent) : AActor :=
  { o.AttachToComponent I parent grabAttachmentRules with
    ReplicatedPhysicsComponents := helpersAfterWrite false o i c
    MeshComponents := setSimulatePhysicsFrom true c.PhysicsMeshComponents 0 o.MeshComponents }

/-- The constraint step of `PhysicsUngrab`. -/
def releasedInteractors (J : Option InteractorId)
    (Interactors : InteractorId → UXRInteractorComponent) :
    InteractorId → UXRInteractorComponent :=
  match J with
  | some I =>
    match (Interactors I).PhysicsConstraint with
    | some k =>
      Function.update Interactors I
        { Interactors I with PhysicsConstraint := some k.BreakConstraint }
    | none => Interactors
  | none => Interactors

/-- A run of `StartInteraction` calls, one per listed interactor, in order. -/
def StartInteractions : List (Option InteractorId) → GrabWorld → Option GrabWorld
  | [], g => some g
  | J :: Js, g => (StartInteraction J g).bind (StartInteractions Js)

/-- The grab is in physics mode, its owner has authority, and the helper it points to has its
server-replicate-physics flag cleared. -/
def ReplicationSuspended (g : GrabWorld) : Prop :=
  g.Grab.bEnablePhysics = true ∧
    ∃ o i c, g.Owner = some o ∧ o.bHasAuthority = true ∧
      g.Grab.XRReplicatedPhysicsComponent = some i ∧
      o.ReplicatedPhysicsComponents[i]? = some c ∧ c.bServerReplicatePhysics = false

/-- A grab in physics mode on an owner with authority whose helper has the flag cleared before
the grab; the interactors have a constraint assigned and the root mesh is cached. -/
def grabFlagCleared : GrabWorld :=
  { Grab := { XRReplicatedPhysicsComponent := some 0 }
    Owner := some
      { ReplicatedPhysicsComponents :=
          [{ bServerReplicatePhysics := false, PhysicsMeshComponents := [some 0] }]
        MeshComponents := [{}]
        RootMesh := some 0 }
    Interactors := fun _ => { PhysicsConstraint := some {} } }

/-- A grab in physics mode on an owner without authority whose helper has the flag set; no
mesh is cached and no constraint is assigned. -/
def grabNoAuthority : GrabWorld :=
  { Grab := { XRReplicatedPhysicsComponent := some 0 }
    Owner := some
      { bHasAuthority := false
        ReplicatedPhysicsComponents := [{ bServerReplicatePhysics := true }] } }

/-- A grab in physics mode on an owner with authority whose helper has the flag set; the root
mesh is cached and interactor 0 alone has a constraint assigned. -/
def grabPhysics : GrabWorld :=
  { Grab := { XRReplicatedPhysicsComponent := some 0 }
    Owner := some
      { ReplicatedPhysicsComponents :=
          [{ bServerReplicatePhysics := true, PhysicsMeshComponents := [some 0] }]
        MeshComponents := [{}]
        RootMesh := some 0 }
    Interactors := fun I => if I = 0 then { PhysicsConstraint := some {} } else {} }

/-- A grab in kinematic mode on an unattached owner that has a helper and a mesh. -/
def grabKinematic : GrabWorld :=
  { Grab := { bEnablePhysics := false }
    Owner := some
      { WorldTransform := { Location := { X := 3, Y := 4, Z := 5 } }
        RelativeTransform := { Location := { X := 3, Y := 4, Z := 5 } }
        ReplicatedPhysicsComponents := [{ bServerReplicatePhysics := true }]
        MeshComponents := [{}] }
    Interactors := fun _ =>
      { ComponentToWorld := { Location := { X := 1, Y := 1, Z := 1 } }
        PhysicsConstraint := some {} } }

/-- A grab in physics mode before `BeginPlay`: the owner has a tagged mesh and no helper. -/
def grabBeforeBeginPlay : GrabWorld :=
  { Owner := some
      { RootMesh := some 0
        MeshComponents := [{}, { ComponentTags := ["XRPhysics"] }] } }

/-! ## The interactor (bodies absent from the sources) -/

/-- The interactors, the interactions and the actors, each reached by its identifier. -/
structure XRWorld where
  Interactors : InteractorId → UXRInteractorComponent := fun _ => {}
  Interactions : InteractionId → UXRInteractionComponent := fun _ => {}
  Actors : ActorId → AActor := fun _ => {}

/-- The first element of the list whose key is lowest ("first found wins"). -/
def firstMinBy (key : Nat → Int) : List Nat → Option Nat
  | [] => none
  | a :: as =>
    match firstMinBy key as with
    | none => some a
    | some b => if key b < key a then some b else some a

/-- The first element of the list whose key is highest ("first found wins"). -/
def firstMaxBy (key : Nat → Int) : List Nat → Option Nat
  | [] => none
  | a :: as =>
    match firstMaxBy key as with
    | none => some a
    | some b => if key a < key b then some b else some a

/-- Engine call `TArray::AddUnique`. -/
def AddUnique (X : Nat) (l : List Nat) : List Nat :=
  if X ∈ l then l else l ++ [X]

/-- Engine call `TArray::Remove`: every occurrence goes. -/
def Remove (X : Nat) (l : List Nat) : List Nat :=
  l.filter fun Y => Y != X

/-- `UXRInteractionComponent::GetInteractionPriority` of an interaction of the world. -/
def XRWorld.priority (w : XRWorld) (X : InteractionId) : Int :=
  (w.Interactions X).InteractionPriority

/-- Modelled from the spec: `UXRInteractorComponent::GetAllOverlappingActors`, body absent:
"all actors currently overlapping the interactor's colliders". -/
def GetAllOverlappingActors (I : InteractorId) (w : XRWorld) : List ActorId :=
  (w.Interactors I).OverlappingActors

/-- The interactor already interacts with the actor: one of the actor's interactions is in the
interactor's active list. -/
def IsInteractingWith (I : InteractorId) (A : ActorId) (w : XRWorld) : Bool :=
  (w.Actors A).XRInteractionComponents.any fun X =>
    decide (X ∈ (w.Interactors I).ActiveInteractionComponents)

/-- The interactions of the actor that are "not already active". -/
def AvailableInteractions (A : ActorId) (w : XRWorld) : List InteractionId :=
  (w.Actors A).XRInteractionComponents.filter fun X => !(w.Interactions X).IsInteractionActive

/-- Modelled from the spec: the actors the selection rule considers, those that "expose at
least one Interaction component", "excluding any actor already being interacted with by this
interactor unless stacking further interactions on that same actor". -/
def IsQualifyingActor (I : InteractorId) (A : ActorId) (w : XRWorld) : Bool :=
  !(w.Actors A).XRInteractionComponents.isEmpty &&
    (!IsInteractingWith I A w || !(AvailableInteractions A w).isEmpty)

/-- Squared distance from the interactor to the root of the actor. -/
def XRWorld.rootDistSquared (w : XRWorld) (I : InteractorId) (A : ActorId) : Int :=
  (w.Interactors I).ComponentToWorld.Location.DistSquared (w.Actors A).WorldTransform.Location

/-- Modelled from the spec: `UXRInteractorComponent::GetClosestXRInteractionActor`, body
absent: among the qualifying overlapping actors, "the actor whose root is closest to the
interactor (Euclidean distance)"; on a tie the first found wins. -/
def GetClosestXRInteractionActor (I : InteractorId) (w : XRWorld) : Option ActorId :=
  firstMinBy (w.rootDistSquared I)
    ((GetAllOverlappingActors I w).filter fun A => IsQualifyingActor I A w)

/-- Modelled from the spec: `UXRInteractorComponent::CanInteract`, body absent: "among that
actor's Interaction components, select the one with the numerically lowest priority value that
is not already active"; `none` is the answer false. -/
def CanInteract (I : InteractorId) (w : XRWorld) : Option InteractionId :=
  match GetClosestXRInteractionActor I w with
  | some A => firstMinBy w.priority (AvailableInteractions A w)
  | none => none

/-- Modelled from the spec: `UXRInteractorComponent::Multicast_ExecuteInteraction`, body
absent: the interaction's start hook runs with this interactor; a continuous interaction joins
the active list, a non-continuous one "fires start/end instantly and is not held" (spec,
section 3); the interactor raises its started notification.  The header agrees:
`GetActiveInteractions` returns the "Continuous Interactions this Interactor is handling"
(`XRInteractorComponent.h`, lines 89-93) and `SetActiveInteractor` "sets the Active Interactor
if this is a ContinuousInteraction" (`XRInteractionComponent.h`, lines 79-84). -/
def Multicast_ExecuteInteraction (I : InteractorId) (InteractionComponent : Option InteractionId)
    (w : XRWorld) : XRWorld :=
  match InteractionComponent with
  | none => w
  | some X =>
    let x := (w.Interactions X).StartInteraction (some I)
    let i := w.Interactors I
    { w with
      Interactions := Function.update w.Interactions X
        (if x.bIsContinuousInteraction then x else x.EndInteraction (some I))
      Interactors := Function.update w.Interactors I
        { i with
          ActiveInteractionComponents :=
            if x.bIsContinuousInteraction then AddUnique X i.ActiveInteractionComponents
            else i.ActiveInteractionComponents
          Broadcasts := i.Broadcasts ++ [.StartedInteracting X] } }

/-- Modelled from the spec: `UXRInteractorComponent::Server_ExecuteInteraction`, body absent:
the request is "executed with owning-actor authority, and the resulting state change is
broadcast to all observers". -/
def Server_ExecuteInteraction (I : InteractorId) (InInteractionComponent : Option InteractionId)
    (w : XRWorld) : XRWorld :=
  Multicast_ExecuteInteraction I InInteractionComponent w

/-- Modelled from the spec: `UXRInteractorComponent::Multicast_TerminateInteraction`, body
absent: the interaction leaves the active list of the interactor, its end hook runs, and the
interactor raises its stopped notification. -/
def Multicast_TerminateInteraction (I : InteractorId)
    (InteractionComponent : Option InteractionId) (w : XRWorld) : XRWorld :=
  match InteractionComponent with
  | none => w
  | some X =>
    let i := w.Interactors I
    { w with
      Interactions := Function.update w.Interactions X
        ((w.Interactions X).EndInteraction (some I))
      Interactors := Function.update w.Interactors I
        { i with
          ActiveInteractionComponents := Remove X i.ActiveInteractionComponents
          Broadcasts := i.Broadcasts ++ [.StoppedInteracting X] } }

/-- Modelled from the spec: `UXRInteractorComponent::Server_TerminateInteraction`, body
absent. -/
def Server_TerminateInteraction (I : InteractorId) (InInteractionComponent : Option InteractionId)
    (w : XRWorld) : XRWorld :=
  Multicast_TerminateInteraction I InInteractionComponent w

/-- Modelled from the spec: `UXRInteractorComponent::StartXRInteraction`, body absent: "if the
target interaction is continuous and already active on another interactor, proceed only if
take-over is allowed, terminating the prior holder first"; the header adds that "if the
InteractionComponent is already interacted with, the current interaction will be terminated
first".  A null argument is discarded. -/
def StartXRInteraction (I : InteractorId) (InInteractionComponent : Option InteractionId)
    (w : XRWorld) : XRWorld :=
  match InInteractionComponent with
  | none => w
  | some X =>
    if (w.Interactions X).IsInteractionActive then
      match (w.Interactions X).ActiveInteractor with
      | some J =>
        if J = I ∨ (w.Interactions X).bAllowTakeOver = true then
          Server_ExecuteInteraction I (some X) (Server_TerminateInteraction J (some X) w)
        else w
      | none => Server_ExecuteInteraction I (some X) w
    else Server_ExecuteInteraction I (some X) w

/-- The start request is carried out, not refused: the interaction is not a continuous one
held by another interactor that forbids take-over. -/
def StartXRInteractionProceeds (I : InteractorId) (X : InteractionId) (w : XRWorld) : Bool :=
  !((w.Interactions X).IsInteractionActive &&
    (match (w.Interactions X).ActiveInteractor with
      | some J => decide (J ≠ I) && !(w.Interactions X).bAllowTakeOver
      | none => false))

/-- Modelled from the spec: `UXRInteractorComponent::StopXRInteraction`, body absent:
"stopping discards the request if the interaction is not currently active", and for an
"invalid/null interaction argument" the "request [is] silently discarded". -/
def StopXRInteraction (I : InteractorId) (InXRInteraction : Option InteractionId)
    (w : XRWorld) : XRWorld :=
  match InXRInteraction with
  | none => w
  | some X =>
    if (w.Interactions X).IsInteractionActive then Server_TerminateInteraction I (some X) w
    else w

/-- Modelled from the spec: `UXRInteractorComponent::AutoStartXRInteraction`, body absent: it
starts the interaction `CanInteract` selects, and nothing when there is none. -/
def AutoStartXRInteraction (I : InteractorId) (w : XRWorld) : XRWorld :=
  match CanInteract I w with
  | some X => StartXRInteraction I (some X) w
  | none => w

/-- Interactor 0 overlaps actor 7 (far) and actor 3 (near); actor 3 exposes interaction 5 of
priority 2 and interaction 4 of priority 1, actor 7 exposes interaction 6 of priority 0. -/
def worldTwoPriorities : XRWorld :=
  { Interactors := fun _ => { OverlappingActors := [7, 3] }
    Interactions := fun X =>
      if X = 4 then { InteractionPriority := 1 }
      else if X = 5 then { InteractionPriority := 2 }
      else { InteractionPriority := 0 }
    Actors := fun A =>
      if A = 3 then
        { WorldTransform := { Location := { X := 1 } }, XRInteractionComponents := [5, 4] }
      else if A = 7 then
        { WorldTransform := { Location := { X := 9 } }, XRInteractionComponents := [6] }
      else {} }

/-- Interaction 0 is not continuous; nothing is active. -/
def worldInstant : XRWorld :=
  { Interactions := fun _ => { bIsContinuousInteraction := false } }

/-- Interaction 2 is continuous and held by interactor 1; it forbids take-over. -/
def worldHeld : XRWorld :=
  { Interactors := fun I => if I = 1 then { ActiveInteractionComponents := [2] } else {}
    Interactions := fun X =>
      if X = 2 then
        { bAllowTakeOver := false, bIsInteractionActive := true, ActiveInteractor := some 1 }
      else {} }

/-- Modelled from the spec: the base `UXRInteractionComponent::HoverInteraction`, body absent;
the header says it sets the "Hover state to true or false" and calls the hovered event. -/
def UXRInteractionComponent.HoverInteraction (InInteractor : Option InteractorId)
    (bInHoverState : Bool) (x : UXRInteractionComponent) : UXRInteractionComponent :=
  { x with
    bHoverState := bInHoverState
    Broadcasts := x.Broadcasts ++ [.InteractionHovered InInteractor bInHoverState] }

/-- What `HoverActor` does for one interaction of the actor: the interaction's hover hook runs,
the interaction enters or leaves the hover set of the interactor, and the interactor raises
its hover-changed notification. -/
def hoverInteraction (I : InteractorId) (bHoverState : Bool) (X : InteractionId)
    (w : XRWorld) : XRWorld :=
  let i := w.Interactors I
  { w with
    Interactions := Function.update w.Interactions X
      ((w.Interactions X).HoverInteraction (some I) bHoverState)
    Interactors := Function.update w.Interactors I
      { i with
        HoveredInteractionComponents :=
          if bHoverState then AddUnique X i.HoveredInteractionComponents
          else Remove X i.HoveredInteractionComponents
        Broadcasts := i.Broadcasts ++ [.HoverStateChanged X bHoverState] } }

/-- The loop of `HoverActor` over the interactions found on the actor. -/
def hoverInteractions (I : InteractorId) (bHoverState : Bool) :
    List InteractionId → XRWorld → XRWorld
  | [], w => w
  | X :: Xs, w => hoverInteractions I bHoverState Xs (hoverInteraction I bHoverState X w)

/-- Modelled from the spec: `UXRInteractorComponent::HoverActor`, body absent: "the interactor
toggles hover state on each Interaction found on that actor and raises a hover-changed
notification; a hover set is maintained purely for query purposes".  A null actor is
discarded. -/
def HoverActor (I : InteractorId) (OtherActor : Option ActorId) (bHoverState : Bool)
    (w : XRWorld) : XRWorld :=
  match OtherActor with
  | some A => hoverInteractions I bHoverState (w.Actors A).XRInteractionComponents w
  | none => w

/-- Modelled from the spec: `UXRInteractorComponent::OnOverlapBegin`, body absent: "on overlap
begin" the actor is hovered. -/
def OnOverlapBegin (I : InteractorId) (OtherActor : Option ActorId) (w : XRWorld) : XRWorld :=
  HoverActor I OtherActor true w

/-- Modelled from the spec: `UXRInteractorComponent::OnOverlapEnd`, body absent: "on overlap
end" the actor is no longer hovered. -/
def OnOverlapEnd (I : InteractorId) (OtherActor : Option ActorId) (w : XRWorld) : XRWorld :=
  HoverActor I OtherActor false w

/-- The states of the hover-changed notifications about interaction `X` in a log of an
interactor, oldest first. -/
def hoverNotifications (X : InteractionId) : List XRInteractorEvent → List Bool
  | [] => []
  | .HoverStateChanged Y b :: es =>
    if Y = X then b :: hoverNotifications X es else hoverNotifications X es
  | .StartedInteracting _ :: es => hoverNotifications X es
  | .StoppedInteracting _ :: es => hoverNotifications X es

/-- The grab `grabKinematic` after its `BeginPlay`, with `bEnablePhysics` switched on
afterwards: the helper was never acquired. -/
def grabEnabledLate : GrabWorld :=
  { BeginPlay (some {}) grabKinematic with
    Grab := { (BeginPlay (some {}) grabKinematic).Grab with bEnablePhysics := true } }

/-- A grab in kinematic mode without an owning actor. -/
def grabNoOwner : GrabWorld :=
  { Grab := { bEnablePhysics := false } }

/-- A grab in kinematic mode whose owner is attached to interactor 9 before the grab. -/
def grabKinematicAttached : GrabWorld :=
  { Grab := { bEnablePhysics := false }
    Owner := some { AttachParent := some 9 } }

/-- A grab in physics mode before `BeginPlay` whose owner already carries a helper with an
empty cache, next to a root mesh and a mesh tagged for this grab. -/
def grabHelperPresent : GrabWorld :=
  { Owner := some
      { RootMesh := some 0
        MeshComponents := [{}, { ComponentTags := ["XRPhysics"] }]
        ReplicatedPhysicsComponents := [{ bRegistered := true, bIsActive := true }] } }

/-- The rules `DetachOwningActorFromXRInteractor` detaches with. -/
def grabDetachmentRules : FDetachmentTransformRules :=
  { LocationRule := .KeepWorld, RotationRule := .KeepWorld, ScaleRule := .KeepWorld,
    bCallModify := false }

/-- The meshes this grab's `PhysicsTag` selects on its owner: what
`CachePhysicsMeshComponents(PhysicsTag)` caches. -/
def PhysicsTagSelection (g : GrabWorld) : Option (List (Option MeshId)) :=
  g.Owner.map fun o =>
    (({} : UXRReplicatedPhysicsComponent).CachePhysicsMeshComponents g.Grab.PhysicsTag
      o).PhysicsMeshComponents

/-! ## The grab: what each call computes -/

theorem helper_some {g : GrabWorld} {c : UXRReplicatedPhysicsComponent} (hc : g.helper = some c) :
    ∃ o i, g.Owner = some o ∧ g.Grab.XRReplicatedPhysicsComponent = some i ∧
      o.ReplicatedPhysicsComponents[i]? = some c := by
  unfold GrabWorld.helper at hc
  split at hc
  · next o i ho hi => exact ⟨o, i, ho, hi, hc⟩
  · cases hc

theorem helper_eq {g : GrabWorld} {o : AActor} {i : Nat} (ho : g.Owner = some o)
    (hi : g.Grab.XRReplicatedPhysicsComponent = some i) :
    g.helper = o.ReplicatedPhysicsComponents[i]? := by
  simp [GrabWorld.helper, ho, hi]

theorem guardedWrite_eq (b : Bool) (g : GrabWorld) (o : AActor) (i : Nat)
    (c : UXRReplicatedPhysicsComponent) (ho : g.Owner = some o)
    (hi : g.Grab.XRReplicatedPhysicsComponent = some i)
    (hc : o.ReplicatedPhysicsComponents[i]? = some c) :
    (if o.bHasAuthority then g.Server_SetServerReplicatePhysics b else some g) =
      some { g with
        Owner := some { o with ReplicatedPhysicsComponents := helpersAfterWrite b o i c } } := by
  cases hauth : o.bHasAuthority
  · simp [helpersAfterWrite, hauth]
    cases g
    simp at ho
    simp [ho]
    cases o
    simp at hauth
    simp [hauth]
  · simp [helpersAfterWrite, hauth, GrabWorld.Server_SetServerReplicatePhysics, ho, hi, hc]

theorem helpersAfterWrite_get (b : Bool) (o : AActor) (i : Nat)
    (c : UXRReplicatedPhysicsComponent) (hc : o.ReplicatedPhysicsComponents[i]? = some c) :
    (helpersAfterWrite b o i c)[i]? =
      some (if o.bHasAuthority then c.Server_SetServerReplicatePhysics b else c) := by
  have hlt : i < o.ReplicatedPhysicsComponents.length := by
    rcases List.getElem?_eq_some.1 hc with ⟨h, _⟩
    exact h
  cases hauth : o.bHasAuthority <;> simp [helpersAfterWrite, hauth, hc, hlt]

theorem helpersAfterWrite_length (b : Bool) (o : AActor) (i : Nat)
    (c : UXRReplicatedPhysicsComponent) :
    (helpersAfterWrite b o i c).length = o.ReplicatedPhysicsComponents.length := by
  cases hauth : o.bHasAuthority <;> simp [helpersAfterWrite, hauth]

theorem AttachOwningActorToXRInteractor_eq (g : GrabWorld) (I : InteractorId) (o : AActor)
    (ho : g.Owner = some o) :
    AttachOwningActorToXRInteractor (some I) g =
      some { g with
        Owner := some (o.AttachToComponent I (g.Interactors I).ComponentToWorld
          grabAttachmentRules) } := by
  simp [AttachOwningActorToXRInteractor, ho, grabAttachmentRules]

theorem PhysicsGrab_eq (g : GrabWorld) (I : InteractorId) (o : AActor) (i : Nat)
    (c : UXRReplicatedPhysicsComponent) (ho : g.Owner = some o)
    (hi : g.Grab.XRReplicatedPhysicsComponent = some i)
    (hc : o.ReplicatedPhysicsComponents[i]? = some c) :
    PhysicsGrab (some I) g = some
      { Grab := g.Grab
        Owner := some (grabbedOwner I (g.Interactors I).ComponentToWorld o i c)
        Interactors := coupledInteractors I c.PhysicsMeshComponents g.Interactors } := by
  have hget := helpersAfterWrite_get false o i c hc
  have hmesh : (if o.bHasAuthority then c.Server_SetServerReplicatePhysics false else c).PhysicsMeshComponents
      = c.PhysicsMeshComponents := by
    cases o.bHasAuthority <;> rfl
  generalize hc' : (if o.bHasAuthority then c.Server_SetServerReplicatePhysics false else c) = c' at hget hmesh
  unfold PhysicsGrab
  simp only [ho]
  rw [guardedWrite_eq false g o i c ho hi hc]
  simp only [Option.bind_eq_bind, Option.some_bind]
  rw [AttachOwningActorToXRInteractor_eq _ I _ rfl]
  simp only [Option.some_bind]
  simp only [GrabWorld.SetComponentsSimulatePhysics, GrabWorld.helper, hi,
    AActor.AttachToComponent, hget, Option.some_bind, GrabWorld.GetPhysicsMeshComponents, hmesh]
  rcases hm : c.PhysicsMeshComponents with _ | ⟨m, ms⟩
  · simp [coupledInteractors, grabbedOwner, AActor.AttachToComponent, hm]
  · rcases hk : (g.Interactors I).PhysicsConstraint with _ | k <;> cases m <;>
      simp [coupledInteractors, grabbedOwner, AActor.AttachToComponent, hm, hk]

theorem PhysicsUngrab_eq (g : GrabWorld) (J : Option InteractorId) (o : AActor) (i : Nat)
    (c : UXRReplicatedPhysicsComponent) (ho : g.Owner = some o)
    (hi : g.Grab.XRReplicatedPhysicsComponent = some i)
    (hc : o.ReplicatedPhysicsComponents[i]? = some c) :
    PhysicsUngrab J g = some
      { Grab := g.Grab
        Owner := some { o with ReplicatedPhysicsComponents := helpersAfterWrite true o i c }
        Interactors := releasedInteractors J g.Interactors } := by
  unfold PhysicsUngrab
  rcases J with _ | I
  · simp only [ho]
    rw [guardedWrite_eq true g o i c ho hi hc]
    rfl
  · rcases hk : (g.Interactors I).PhysicsConstraint with _ | k
    · simp only [hk, ho]
      rw [guardedWrite_eq true g o i c ho hi hc]
      simp [releasedInteractors, hk]
    · simp only [hk, ho]
      refine (guardedWrite_eq true _ o i c rfl (by exact hi) hc).trans ?_
      simp [releasedInteractors, hk]

theorem setSimulatePhysicsFrom_get (b : Bool) (ids : List (Option MeshId))
    (ms : List UMeshComponent) (k j : Nat) :
    (setSimulatePhysicsFrom b ids k ms)[j]? =
      ms[j]?.map fun m => if some (k + j) ∈ ids then { m with bSimulatePhysics := b } else m := by
  induction ms generalizing k j with
  | nil => simp [setSimulatePhysicsFrom]
  | cons m ms ih =>
    cases j with
    | zero => simp [setSimulatePhysicsFrom]
    | succ j =>
      simp only [setSimulatePhysicsFrom, List.getElem?_cons_succ]
      rw [ih (k + 1) j]
      have : k + 1 + j = k + (j + 1) := by omega
      rw [this]

theorem setSimulatePhysicsFrom_length (b : Bool) (ids : List (Option MeshId))
    (ms : List UMeshComponent) (k : Nat) :
    (setSimulatePhysicsFrom b ids k ms).length = ms.length := by
  induction ms generalizing k with
  | nil => simp [setSimulatePhysicsFrom]
  | cons m ms ih => simp [setSimulatePhysicsFrom, ih]

theorem StartInteraction_physics_eq (g : GrabWorld) (I : InteractorId) (o : AActor) (i : Nat)
    (c : UXRReplicatedPhysicsComponent) (hp : g.Grab.bEnablePhysics = true)
    (ho : g.Owner = some o) (hi : g.Grab.XRReplicatedPhysicsComponent = some i)
    (hc : o.ReplicatedPhysicsComponents[i]? = some c) :
    StartInteraction (some I) g = some
      { Grab := (g.SuperStartInteraction (some I)).Grab
        Owner := some (grabbedOwner I (g.Interactors I).ComponentToWorld o i c)
        Interactors := coupledInteractors I c.PhysicsMeshComponents g.Interactors } := by
  unfold StartInteraction
  have h1 : (g.SuperStartInteraction (some I)).Grab.bEnablePhysics = true := hp
  simp only [h1, if_true]
  exact PhysicsGrab_eq (g.SuperStartInteraction (some I)) I o i c ho hi hc

theorem StartInteraction_null_eq (g : GrabWorld) :
    StartInteraction none g = some (g.SuperStartInteraction none) := by
  unfold StartInteraction
  cases h : (g.SuperStartInteraction none).Grab.bEnablePhysics <;>
    simp [PhysicsGrab, AttachOwningActorToXRInteractor]

theorem EndInteraction_physics_eq (g : GrabWorld) (J : Option InteractorId) (o : AActor)
    (i : Nat) (c : UXRReplicatedPhysicsComponent) (hp : g.Grab.bEnablePhysics = true)
    (ho : g.Owner = some o) (hi : g.Grab.XRReplicatedPhysicsComponent = some i)
    (hc : o.ReplicatedPhysicsComponents[i]? = some c) :
    EndInteraction J g = some
      { Grab := (g.SuperEndInteraction J).Grab
        Owner := some { o with ReplicatedPhysicsComponents := helpersAfterWrite true o i c }
        Interactors := releasedInteractors J g.Interactors } := by
  unfold EndInteraction
  have h1 : (g.SuperEndInteraction J).Grab.bEnablePhysics = true := hp
  simp only [h1, if_true]
  exact PhysicsUngrab_eq (g.SuperEndInteraction J) J o i c ho hi hc

/-- What `StartInteraction` in physics mode leaves of the helper: the grab still points to it,
the owner keeps its authority, and the flag is cleared exactly when the interactor is non-null
and the owner has authority. -/
theorem StartInteraction_physics_helper (g : GrabWorld) (I : Option InteractorId) (o : AActor)
    (i : Nat) (c : UXRReplicatedPhysicsComponent) (hp : g.Grab.bEnablePhysics = true)
    (ho : g.Owner = some o) (hi : g.Grab.XRReplicatedPhysicsComponent = some i)
    (hc : o.ReplicatedPhysicsComponents[i]? = some c) :
    ∃ g1 o1 c1, StartInteraction I g = some g1 ∧ g1.Grab.bEnablePhysics = true ∧
      g1.Owner = some o1 ∧ g1.Grab.XRReplicatedPhysicsComponent = some i ∧
      o1.ReplicatedPhysicsComponents[i]? = some c1 ∧ o1.bHasAuthority = o.bHasAuthority ∧
      c1.bServerReplicatePhysics =
        (if I.isSome ∧ o.bHasAuthority = true then false else c.bServerReplicatePhysics) := by
  rcases I with _ | I
  · exact ⟨_, o, c, StartInteraction_null_eq g, hp, ho, hi, hc, rfl, by simp⟩
  · refine ⟨_, _, _, StartInteraction_physics_eq g I o i c hp ho hi hc, hp, rfl, hi,
      helpersAfterWrite_get false o i c hc, rfl, ?_⟩
    cases hauth : o.bHasAuthority <;>
      simp [UXRReplicatedPhysicsComponent.Server_SetServerReplicatePhysics]

/-- What `EndInteraction` in physics mode leaves of the helper: the flag is set exactly when
the owner has authority. -/
theorem EndInteraction_physics_helper (g : GrabWorld) (J : Option InteractorId) (o : AActor)
    (i : Nat) (c : UXRReplicatedPhysicsComponent) (hp : g.Grab.bEnablePhysics = true)
    (ho : g.Owner = some o) (hi : g.Grab.XRReplicatedPhysicsComponent = some i)
    (hc : o.ReplicatedPhysicsComponents[i]? = some c) :
    ∃ g2, EndInteraction J g = some g2 ∧
      g2.replicateFlag = some (o.bHasAuthority || c.bServerReplicatePhysics) := by
  refine ⟨_, EndInteraction_physics_eq g J o i c hp ho hi hc, ?_⟩
  have hi2 : (g.SuperEndInteraction J).Grab.XRReplicatedPhysicsComponent = some i := hi
  simp only [GrabWorld.replicateFlag, GrabWorld.helper, hi2, helpersAfterWrite_get true o i c hc]
  cases hauth : o.bHasAuthority <;>
    simp [UXRReplicatedPhysicsComponent.Server_SetServerReplicatePhysics]

theorem StartInteraction_kinematic_eq (g : GrabWorld) (I : InteractorId) (o : AActor)
    (hp : g.Grab.bEnablePhysics = false) (ho : g.Owner = some o) :
    StartInteraction (some I) g = some
      { g.SuperStartInteraction (some I) with
        Owner := some (o.AttachToComponent I (g.Interactors I).ComponentToWorld
          grabAttachmentRules) } := by
  have h1 : (g.SuperStartInteraction (some I)).Grab.bEnablePhysics = false := hp
  unfold StartInteraction
  simp only [h1]
  exact AttachOwningActorToXRInteractor_eq (g.SuperStartInteraction (some I)) I o ho

/-! ## The grab: claims -/

/-- C4 (counterexample): a grab in physics mode on an owner with authority whose helper has the
server-replicate-physics flag cleared before the grab; `StartInteraction` followed by
`EndInteraction` leaves the flag set, not equal to its value before the grab. -/
theorem grab_release_flag_not_restored :
    grabFlagCleared.Grab.bEnablePhysics = true ∧
      grabFlagCleared.replicateFlag = some false ∧
      ((StartInteraction (some 0) grabFlagCleared).bind (EndInteraction (some 0))).bind
        GrabWorld.replicateFlag = some true := by
  decide

/-- C4 (amended): for every grab in physics mode with an owner and a helper, whatever the
interactors passed (null included), whether or not a constraint is assigned or a mesh is
cached, `StartInteraction` followed by `EndInteraction` completes and leaves the
server-replicate-physics flag set when the owner has authority and at its value before the
grab when it has not; so the flag equals its value before the grab whenever that value was true
or the owner has no authority. -/
theorem grab_release_flag (g : GrabWorld) (I J : Option InteractorId) (o : AActor)
    (c : UXRReplicatedPhysicsComponent) (hp : g.Grab.bEnablePhysics = true)
    (ho : g.Owner = some o) (hc : g.helper = some c) :
    ∃ g1 g2, StartInteraction I g = some g1 ∧ EndInteraction J g1 = some g2 ∧
      g2.replicateFlag = some (o.bHasAuthority || c.bServerReplicatePhysics) ∧
      (c.bServerReplicatePhysics = true ∨ o.bHasAuthority = false →
        g2.replicateFlag = g.replicateFlag) := by
  obtain ⟨o', i, ho', hi, hci⟩ := helper_some hc
  obtain rfl : o' = o := Option.some.inj (ho'.symm.trans ho)
  obtain ⟨g1, o1, c1, hs, hp1, ho1, hi1, hc1, hauth1, hflag1⟩ :=
    StartInteraction_physics_helper g I o' i c hp ho hi hci
  obtain ⟨g2, he, hflag2⟩ := EndInteraction_physics_helper g1 J o1 i c1 hp1 ho1 hi1 hc1
  have key : g2.replicateFlag = some (o'.bHasAuthority || c.bServerReplicatePhysics) := by
    rw [hflag2, hauth1, hflag1]
    cases o'.bHasAuthority <;> simp
  refine ⟨g1, g2, hs, he, key, ?_⟩
  intro h
  rw [key]
  simp only [GrabWorld.replicateFlag, hc, Option.map_some']
  rcases h with h | h <;> simp [h]

/-- C4 (witness): the amended statement at a grab without authority, without a cached mesh and
without a constraint. -/
theorem grab_release_flag_witness :
    ∃ g1 g2, StartInteraction (some 0) grabNoAuthority = some g1 ∧
      EndInteraction (some 0) g1 = some g2 ∧
      g2.replicateFlag = some (false || true) ∧
      (true = true ∨ false = false → g2.replicateFlag = grabNoAuthority.replicateFlag) :=
  grab_release_flag grabNoAuthority (some 0) (some 0)
    { bHasAuthority := false, ReplicatedPhysicsComponents := [{ bServerReplicatePhysics := true }] }
    { bServerReplicatePhysics := true } rfl rfl rfl

/-- C5: in kinematic mode, for every non-null interactor `I`, `StartInteraction(I)` attaches
the owning actor to `I`, keeps its world transform, and leaves the simulate-physics settings
of the meshes, the helpers with their flags, the helper pointer and every interactor (its
constraint included) as they were. -/
theorem StartInteraction_kinematic (g : GrabWorld) (I : InteractorId) (o : AActor)
    (hp : g.Grab.bEnablePhysics = false) (ho : g.Owner = some o) :
    ∃ g1 o1, StartInteraction (some I) g = some g1 ∧ g1.Owner = some o1 ∧
      o1.AttachParent = some I ∧ o1.WorldTransform = o.WorldTransform ∧
      o1.MeshComponents = o.MeshComponents ∧
      o1.ReplicatedPhysicsComponents = o.ReplicatedPhysicsComponents ∧
      o1.bHasAuthority = o.bHasAuthority ∧ o1.RootMesh = o.RootMesh ∧
      g1.Interactors = g.Interactors ∧
      g1.Grab.XRReplicatedPhysicsComponent = g.Grab.XRReplicatedPhysicsComponent ∧
      g1.Grab.bEnablePhysics = false ∧ g1.replicateFlag = g.replicateFlag := by
  refine ⟨_, _, StartInteraction_kinematic_eq g I o hp ho, rfl, rfl, ?_, rfl, rfl, rfl, rfl, rfl, rfl, hp, ?_⟩
  · simp [AActor.AttachToComponent, grabAttachmentRules, EAttachmentRule.world]
  · simp only [GrabWorld.replicateFlag, GrabWorld.helper, GrabWorld.SuperStartInteraction, ho]
    cases g.Grab.XRReplicatedPhysicsComponent <;> rfl

/-- C5 (witness): the statement at a kinematic grab whose owner sits away from the
interactor. -/
theorem StartInteraction_kinematic_witness :
    ∃ g1 o1, StartInteraction (some 0) grabKinematic = some g1 ∧ g1.Owner = some o1 ∧
      o1.AttachParent = some 0 ∧
      o1.WorldTransform = { Location := { X := 3, Y := 4, Z := 5 } } ∧
      o1.MeshComponents = [{}] ∧
      o1.ReplicatedPhysicsComponents = [{ bServerReplicatePhysics := true }] ∧
      o1.bHasAuthority = true ∧ o1.RootMesh = none ∧
      g1.Interactors = grabKinematic.Interactors ∧
      g1.Grab.XRReplicatedPhysicsComponent = none ∧
      g1.Grab.bEnablePhysics = false ∧ g1.replicateFlag = grabKinematic.replicateFlag :=
  StartInteraction_kinematic grabKinematic 0 _ rfl rfl


theorem coupledInteractors_ne (I J : InteractorId) (meshes : List (Option MeshId))
    (Interactors : InteractorId → UXRInteractorComponent) (h : J ≠ I) :
    coupledInteractors I meshes Interactors J = Interactors J := by
  rcases hk : (Interactors I).PhysicsConstraint with _ | k <;>
    rcases hm : meshes.head? with _ | _ | m <;>
    simp [coupledInteractors, hk, hm, Function.update, h]

theorem releasedInteractors_ne (I J : InteractorId)
    (Interactors : InteractorId → UXRInteractorComponent) (h : J ≠ I) :
    releasedInteractors (some I) Interactors J = Interactors J := by
  rcases hk : (Interactors I).PhysicsConstraint with _ | k <;>
    simp [releasedInteractors, hk, Function.update, h]

/-- C6: for every grab in physics mode with an owner and a helper and every non-null
interactor `I`, `StartInteraction(I)` completes, attaches the owner to `I`, turns the
simulate-physics setting of every cached mesh on, and sets `I`'s constraint to couple `I` with the first cached mesh when `I` has
a constraint assigned and the first cached mesh exists and is non-null; when the constraint is
not assigned, or the cache is empty, or its first entry is null, no interactor changes.
`EndInteraction(I)` completes, breaks `I`'s constraint when one is assigned and changes no
interactor otherwise.  Other interactors are never touched. -/
theorem grab_missing_parts (g : GrabWorld) (I : InteractorId) (o : AActor)
    (c : UXRReplicatedPhysicsComponent) (hp : g.Grab.bEnablePhysics = true)
    (ho : g.Owner = some o) (hc : g.helper = some c) :
    (∃ g1 o1, StartInteraction (some I) g = some g1 ∧ g1.Owner = some o1 ∧
      o1.AttachParent = some I ∧
      (∀ m mesh, some m ∈ c.PhysicsMeshComponents → o.MeshComponents[m]? = some mesh →
        o1.MeshComponents[m]? = some { mesh with bSimulatePhysics := true }) ∧
      (∀ k m, (g.Interactors I).PhysicsConstraint = some k →
        c.PhysicsMeshComponents.head? = some (some m) →
        (g1.Interactors I).PhysicsConstraint =
          some { ConstrainedComponents := some (I, m), bConstraintFormed := true }) ∧
      ((g.Interactors I).PhysicsConstraint = none ∨ c.PhysicsMeshComponents = [] ∨
          c.PhysicsMeshComponents.head? = some none → g1.Interactors = g.Interactors) ∧
      (∀ J, J ≠ I → g1.Interactors J = g.Interactors J)) ∧
    (∃ g2, EndInteraction (some I) g = some g2 ∧
      (∀ k, (g.Interactors I).PhysicsConstraint = some k →
        (g2.Interactors I).PhysicsConstraint = some { k with bConstraintFormed := false }) ∧
      ((g.Interactors I).PhysicsConstraint = none → g2.Interactors = g.Interactors) ∧
      (∀ J, J ≠ I → g2.Interactors J = g.Interactors J)) := by
  obtain ⟨o', i, ho', hi, hci⟩ := helper_some hc
  obtain rfl : o' = o := Option.some.inj (ho'.symm.trans ho)
  constructor
  · refine ⟨_, _, StartInteraction_physics_eq g I o' i c hp ho hi hci, rfl, rfl, ?_, ?_, ?_, ?_⟩
    · intro m mesh hm hmesh
      simp [grabbedOwner, setSimulatePhysicsFrom_get, hmesh, hm]
    · intro k m hk hm
      simp [coupledInteractors, hk, hm, UPhysicsConstraintComponent.SetConstrainedComponents]
    · intro h
      rcases h with h | h | h
      · simp only [coupledInteractors, h]
      · cases hk : (g.Interactors I).PhysicsConstraint <;>
          simp only [coupledInteractors, h, hk, List.head?_nil]
      · cases hk : (g.Interactors I).PhysicsConstraint <;>
          simp only [coupledInteractors, h, hk]
    · intro J hJ
      exact coupledInteractors_ne I J _ _ hJ
  · refine ⟨_, EndInteraction_physics_eq g (some I) o' i c hp ho hi hci, ?_, ?_, ?_⟩
    · intro k hk
      simp [releasedInteractors, hk, UPhysicsConstraintComponent.BreakConstraint]
    · intro h
      simp only [releasedInteractors, h]
    · intro J hJ
      exact releasedInteractors_ne I J _ hJ

/-- C6 (witness): the statement at a grab whose interactor 1 has no constraint assigned. -/
theorem grab_missing_parts_witness :
    (∃ g1 o1, StartInteraction (some 1) grabPhysics = some g1 ∧ g1.Owner = some o1 ∧
      o1.AttachParent = some 1 ∧
      (∀ m mesh, some m ∈ [some 0] → [({} : UMeshComponent)][m]? = some mesh →
        o1.MeshComponents[m]? = some { mesh with bSimulatePhysics := true }) ∧
      (∀ k m, (grabPhysics.Interactors 1).PhysicsConstraint = some k →
        [some 0].head? = some (some m) →
        (g1.Interactors 1).PhysicsConstraint =
          some { ConstrainedComponents := some (1, m), bConstraintFormed := true }) ∧
      ((grabPhysics.Interactors 1).PhysicsConstraint = none ∨ [some 0] = [] ∨
          [some 0].head? = some none → g1.Interactors = grabPhysics.Interactors) ∧
      (∀ J, J ≠ 1 → g1.Interactors J = grabPhysics.Interactors J)) ∧
    (∃ g2, EndInteraction (some 1) grabPhysics = some g2 ∧
      (∀ k, (grabPhysics.Interactors 1).PhysicsConstraint = some k →
        (g2.Interactors 1).PhysicsConstraint = some { k with bConstraintFormed := false }) ∧
      ((grabPhysics.Interactors 1).PhysicsConstraint = none →
        g2.Interactors = grabPhysics.Interactors) ∧
      (∀ J, J ≠ 1 → g2.Interactors J = grabPhysics.Interactors J)) :=
  grab_missing_parts grabPhysics 1
    { ReplicatedPhysicsComponents :=
        [{ bServerReplicatePhysics := true, PhysicsMeshComponents := [some 0] }]
      MeshComponents := [{}]
      RootMesh := some 0 }
    { bServerReplicatePhysics := true, PhysicsMeshComponents := [some 0] } rfl rfl rfl

theorem ReplicationSuspended.flag {g : GrabWorld} (h : ReplicationSuspended g) :
    g.replicateFlag = some false := by
  obtain ⟨_, o, i, c, ho, _, hi, hc, hf⟩ := h
  simp [GrabWorld.replicateFlag, GrabWorld.helper, ho, hi, hc, hf]

theorem ReplicationSuspended.start {g : GrabWorld} (h : ReplicationSuspended g)
    (J : Option InteractorId) :
    ∃ g1, StartInteraction J g = some g1 ∧ ReplicationSuspended g1 := by
  obtain ⟨hp, o, i, c, ho, hauth, hi, hc, hf⟩ := h
  obtain ⟨g1, o1, c1, hs, hp1, ho1, hi1, hc1, hauth1, hflag1⟩ :=
    StartInteraction_physics_helper g J o i c hp ho hi hc
  refine ⟨g1, hs, hp1, o1, i, c1, ho1, hauth1.trans hauth, hi1, hc1, ?_⟩
  rw [hflag1, hf]
  simp

theorem ReplicationSuspended.starts {g : GrabWorld} (h : ReplicationSuspended g)
    (Js : List (Option InteractorId)) :
    ∃ gk, StartInteractions Js g = some gk ∧ ReplicationSuspended gk := by
  induction Js generalizing g with
  | nil => exact ⟨g, rfl, h⟩
  | cons J Js ih =>
    obtain ⟨g1, hs, h1⟩ := h.start J
    obtain ⟨gk, hk, h2⟩ := ih h1
    exact ⟨gk, by simp [StartInteractions, hs, hk], h2⟩

theorem ReplicationSuspended.finish {g : GrabWorld} (h : ReplicationSuspended g)
    (J : Option InteractorId) :
    ∃ g2, EndInteraction J g = some g2 ∧ g2.replicateFlag = some true := by
  obtain ⟨hp, o, i, c, ho, hauth, hi, hc, _⟩ := h
  obtain ⟨g2, he, hflag⟩ := EndInteraction_physics_helper g J o i c hp ho hi hc
  exact ⟨g2, he, by simp [hflag, hauth]⟩

/-- C7 (counterexample): a grab in physics mode whose owner has no authority and whose helper
has the server-replicate-physics flag set; after `StartInteraction` with a non-null interactor
the flag is still set. -/
theorem StartInteraction_flag_kept_without_authority :
    grabNoAuthority.Grab.bEnablePhysics = true ∧
      grabNoAuthority.replicateFlag = some true ∧
      (StartInteraction (some 0) grabNoAuthority).bind GrabWorld.replicateFlag = some true := by
  decide

/-- C7 (amended): for every grab in physics mode whose owner has authority (with a helper) and
every non-null interactor `I`, after `StartInteraction(I)` the server-replicate-physics flag
is false; it is still false after any run of further `StartInteraction` calls; and the
`EndInteraction` that follows, whatever its argument, sets it to true. -/
theorem grab_suspends_replication (g : GrabWorld) (I : InteractorId) (o : AActor)
    (c : UXRReplicatedPhysicsComponent) (hp : g.Grab.bEnablePhysics = true)
    (ho : g.Owner = some o) (hc : g.helper = some c) (hauth : o.bHasAuthority = true) :
    ∃ g1, StartInteraction (some I) g = some g1 ∧ g1.replicateFlag = some false ∧
      ∀ Js, ∃ gk, StartInteractions Js g1 = some gk ∧ gk.replicateFlag = some false ∧
        ∀ J, ∃ g2, EndInteraction J gk = some g2 ∧ g2.replicateFlag = some true := by
  obtain ⟨o', i, ho', hi, hci⟩ := helper_some hc
  obtain rfl : o' = o := Option.some.inj (ho'.symm.trans ho)
  obtain ⟨g1, o1, c1, hs, hp1, ho1, hi1, hc1, hauth1, hflag1⟩ :=
    StartInteraction_physics_helper g (some I) o' i c hp ho hi hci
  have hsus : ReplicationSuspended g1 :=
    ⟨hp1, o1, i, c1, ho1, hauth1.trans hauth, hi1, hc1, by simp [hflag1, hauth]⟩
  refine ⟨g1, hs, hsus.flag, ?_⟩
  intro Js
  obtain ⟨gk, hk, hksus⟩ := hsus.starts Js
  exact ⟨gk, hk, hksus.flag, fun J => hksus.finish J⟩

/-- C7 (witness): the amended statement at a grab whose owner has authority. -/
theorem grab_suspends_replication_witness :
    ∃ g1, StartInteraction (some 0) grabPhysics = some g1 ∧ g1.replicateFlag = some false ∧
      ∀ Js, ∃ gk, StartInteractions Js g1 = some gk ∧ gk.replicateFlag = some false ∧
        ∀ J, ∃ g2, EndInteraction J gk = some g2 ∧ g2.replicateFlag = some true :=
  grab_suspends_replication grabPhysics 0
    { ReplicatedPhysicsComponents :=
        [{ bServerReplicatePhysics := true, PhysicsMeshComponents := [some 0] }]
      MeshComponents := [{}]
      RootMesh := some 0 }
    { bServerReplicatePhysics := true, PhysicsMeshComponents := [some 0] } rfl rfl rfl rfl


theorem InitializePhysics_found (n : Option UXRReplicatedPhysicsComponent) (g : GrabWorld)
    (o : AActor) (i : Nat) (ho : g.Owner = some o) (hf : o.FindComponentByClass = some i) :
    InitializePhysics n g =
      { g with Grab := { g.Grab with XRReplicatedPhysicsComponent := some i } } := by
  simp [InitializePhysics, ho, hf]

theorem InitializePhysics_no_owner (n : Option UXRReplicatedPhysicsComponent) (g : GrabWorld)
    (ho : g.Owner = none) : InitializePhysics n g = g := by
  unfold InitializePhysics
  split
  · next o h =>
    rw [ho] at h
    cases h
  · rfl

theorem InitializePhysics_nothing (g : GrabWorld) (o : AActor) (ho : g.Owner = some o)
    (hf : o.FindComponentByClass = none) (hi : g.Grab.XRReplicatedPhysicsComponent = none) :
    InitializePhysics none g = g := by
  unfold InitializePhysics
  simp only [ho, hf]
  obtain ⟨⟨b, p, t, x⟩, O, Ints⟩ := g
  simp only at hi ho
  subst hi
  subst ho
  rfl

theorem InitializePhysics_pointer (n : Option UXRReplicatedPhysicsComponent) (g : GrabWorld)
    (o1 : AActor) (ho1 : (InitializePhysics n g).Owner = some o1) :
    o1.FindComponentByClass = (InitializePhysics n g).Grab.XRReplicatedPhysicsComponent := by
  unfold InitializePhysics at ho1 ⊢
  rcases ho : g.Owner with _ | o
  · simp [ho] at ho1
  · rcases hf : o.FindComponentByClass with _ | i
    · rcases n with _ | c
      · simp only [ho, hf] at ho1 ⊢
        rw [← Option.some.inj ho1]
        exact hf
      · simp only [ho, hf] at ho1 ⊢
        have he : o.ReplicatedPhysicsComponents = [] := by
          simpa [AActor.FindComponentByClass] using hf
        rw [← Option.some.inj ho1]
        simp [AActor.FindComponentByClass, he]
    · simp only [ho, hf] at ho1 ⊢
      rw [← Option.some.inj ho1]
      exact hf

/-- C8: running `InitializePhysics` a second time leaves the state the first run left, on
condition that engine object creation answers alike in both runs or that the first run
acquired a helper.  After the first run the helper `FindComponentByClass` finds on the owner is
the one the grab points to (so the second run finds the helper the first run found or
created), and the second run leaves the owner's helper list and the grab's helper pointer as
they were. -/
theorem InitializePhysics_idempotent (g : GrabWorld)
    (n1 n2 : Option UXRReplicatedPhysicsComponent)
    (h : n1 = n2 ∨ (InitializePhysics n1 g).Grab.XRReplicatedPhysicsComponent ≠ none) :
    InitializePhysics n2 (InitializePhysics n1 g) = InitializePhysics n1 g ∧
      (∀ o1, (InitializePhysics n1 g).Owner = some o1 →
        o1.FindComponentByClass = (InitializePhysics n1 g).Grab.XRReplicatedPhysicsComponent) ∧
      (∀ o1 o2, (InitializePhysics n1 g).Owner = some o1 →
        (InitializePhysics n2 (InitializePhysics n1 g)).Owner = some o2 →
        o2.ReplicatedPhysicsComponents = o1.ReplicatedPhysicsComponents) ∧
      (InitializePhysics n2 (InitializePhysics n1 g)).Grab.XRReplicatedPhysicsComponent =
        (InitializePhysics n1 g).Grab.XRReplicatedPhysicsComponent := by
  have key : InitializePhysics n2 (InitializePhysics n1 g) = InitializePhysics n1 g := by
    rcases ho1 : (InitializePhysics n1 g).Owner with _ | o1
    · exact InitializePhysics_no_owner n2 _ ho1
    · have hp := InitializePhysics_pointer n1 g o1 ho1
      rcases hi : (InitializePhysics n1 g).Grab.XRReplicatedPhysicsComponent with _ | i
      · rw [hi] at hp
        rcases h with h | h
        · subst h
          have hn : n1 = none := by
            unfold InitializePhysics at hi
            rcases ho : g.Owner with _ | o
            · simp [ho, InitializePhysics] at ho1
            · rcases hf : o.FindComponentByClass with _ | j
              · rcases n1 with _ | c
                · rfl
                · simp [ho, hf] at hi
              · simp [ho, hf] at hi
          subst hn
          exact InitializePhysics_nothing _ o1 ho1 hp hi
        · exact absurd hi h
      · rw [hi] at hp
        rw [InitializePhysics_found n2 _ o1 i ho1 hp]
        rw [← hi]
  refine ⟨key, fun o1 ho1 => InitializePhysics_pointer n1 g o1 ho1, ?_, by rw [key]⟩
  intro o1 o2 ho1 ho2
  rw [key] at ho2
  rw [Option.some.inj (ho1.symm.trans ho2)]

/-- C8 (witness): the statement at a grab whose owner has no helper yet, the first run creating
one and the second run being offered another. -/
theorem InitializePhysics_idempotent_witness :
    InitializePhysics (some { bServerReplicatePhysics := true })
        (InitializePhysics (some {}) grabBeforeBeginPlay) =
        InitializePhysics (some {}) grabBeforeBeginPlay ∧
      (∀ o1, (InitializePhysics (some {}) grabBeforeBeginPlay).Owner = some o1 →
        o1.FindComponentByClass =
          (InitializePhysics (some {}) grabBeforeBeginPlay).Grab.XRReplicatedPhysicsComponent) ∧
      (∀ o1 o2, (InitializePhysics (some {}) grabBeforeBeginPlay).Owner = some o1 →
        (InitializePhysics (some { bServerReplicatePhysics := true })
          (InitializePhysics (some {}) grabBeforeBeginPlay)).Owner = some o2 →
        o2.ReplicatedPhysicsComponents = o1.ReplicatedPhysicsComponents) ∧
      (InitializePhysics (some { bServerReplicatePhysics := true })
          (InitializePhysics (some {}) grabBeforeBeginPlay)).Grab.XRReplicatedPhysicsComponent =
        (InitializePhysics (some {}) grabBeforeBeginPlay).Grab.XRReplicatedPhysicsComponent :=
  InitializePhysics_idempotent grabBeforeBeginPlay (some {})
    (some { bServerReplicatePhysics := true }) (Or.inr (by decide))


/-! ## The interactor: what each call computes -/

theorem firstMinBy_mem_le (key : Nat → Int) (l : List Nat) (a : Nat)
    (h : firstMinBy key l = some a) : a ∈ l ∧ ∀ b ∈ l, key a ≤ key b := by
  induction l generalizing a with
  | nil => simp [firstMinBy] at h
  | cons x xs ih =>
    unfold firstMinBy at h
    rcases hr : firstMinBy key xs with _ | m
    · rw [hr] at h
      obtain rfl : x = a := Option.some.inj h
      have hxs : xs = [] := by
        cases xs with
        | nil => rfl
        | cons y ys =>
          unfold firstMinBy at hr
          cases h2 : firstMinBy key ys <;> simp [h2] at hr
          split at hr <;> cases hr
      subst hxs
      simp
    · rw [hr] at h
      obtain ⟨hm, hle⟩ := ih m hr
      by_cases hlt : key m < key x
      · simp only [hlt, if_true] at h
        obtain rfl : m = a := Option.some.inj h
        refine ⟨List.mem_cons_of_mem _ hm, ?_⟩
        intro b hb
        rcases List.mem_cons.1 hb with rfl | hb
        · exact le_of_lt hlt
        · exact hle b hb
      · simp only [hlt, if_false] at h
        obtain rfl : x = a := Option.some.inj h
        refine ⟨List.mem_cons_self _ _, ?_⟩
        intro b hb
        rcases List.mem_cons.1 hb with rfl | hb
        · exact le_refl _
        · exact le_trans (not_lt.1 hlt) (hle b hb)

theorem firstMinBy_some_of_mem (key : Nat → Int) (l : List Nat) (b : Nat) (hb : b ∈ l) :
    ∃ a, firstMinBy key l = some a := by
  cases l with
  | nil => cases hb
  | cons x xs =>
    unfold firstMinBy
    rcases firstMinBy key xs with _ | m
    · exact ⟨x, rfl⟩
    · by_cases hlt : key m < key x
      · exact ⟨m, by simp [hlt]⟩
      · exact ⟨x, by simp [hlt]⟩

theorem firstMaxBy_some_of_ne_nil (key : Nat → Int) (l : List Nat) (hl : l ≠ []) :
    ∃ a, firstMaxBy key l = some a := by
  cases l with
  | nil => exact absurd rfl hl
  | cons x xs =>
    unfold firstMaxBy
    rcases firstMaxBy key xs with _ | m
    · exact ⟨x, rfl⟩
    · by_cases hlt : key x < key m
      · exact ⟨m, by simp [hlt]⟩
      · exact ⟨x, by simp [hlt]⟩

theorem mem_AddUnique (X : Nat) (l : List Nat) : X ∈ AddUnique X l := by
  unfold AddUnique
  split
  · assumption
  · simp

theorem not_mem_Remove (X : Nat) (l : List Nat) : X ∉ Remove X l := by
  simp [Remove]

theorem Multicast_ExecuteInteraction_interaction (I : InteractorId) (X : InteractionId)
    (w : XRWorld) :
    (Multicast_ExecuteInteraction I (some X) w).Interactions X =
      if (w.Interactions X).bIsContinuousInteraction then
        { w.Interactions X with
          ActiveInteractor := some I
          bIsInteractionActive := true
          Broadcasts := (w.Interactions X).Broadcasts ++ [.InteractionStarted (some I)] }
      else
        { w.Interactions X with
          Broadcasts := (w.Interactions X).Broadcasts ++
            [.InteractionStarted (some I), .InteractionEnded (some I)] } := by
  cases hc : (w.Interactions X).bIsContinuousInteraction <;>
    simp [Multicast_ExecuteInteraction, UXRInteractionComponent.StartInteraction,
      UXRInteractionComponent.EndInteraction, UXRInteractionComponent.SetActiveInteractor, hc]

theorem Multicast_ExecuteInteraction_interactor (I : InteractorId) (X : InteractionId)
    (w : XRWorld) :
    (Multicast_ExecuteInteraction I (some X) w).Interactors I =
      { w.Interactors I with
        ActiveInteractionComponents :=
          if (w.Interactions X).bIsContinuousInteraction then
            AddUnique X (w.Interactors I).ActiveInteractionComponents
          else (w.Interactors I).ActiveInteractionComponents
        Broadcasts := (w.Interactors I).Broadcasts ++ [.StartedInteracting X] } := by
  cases hc : (w.Interactions X).bIsContinuousInteraction <;>
    simp [Multicast_ExecuteInteraction, UXRInteractionComponent.StartInteraction,
      UXRInteractionComponent.SetActiveInteractor, hc]

theorem Multicast_ExecuteInteraction_other_interactor (I J : InteractorId) (X : InteractionId)
    (w : XRWorld) (h : J ≠ I) :
    (Multicast_ExecuteInteraction I (some X) w).Interactors J = w.Interactors J := by
  simp [Multicast_ExecuteInteraction, Function.update_apply, h]

theorem Multicast_TerminateInteraction_interaction (J : InteractorId) (X : InteractionId)
    (w : XRWorld) :
    (Multicast_TerminateInteraction J (some X) w).Interactions X =
      if (w.Interactions X).bIsContinuousInteraction then
        { w.Interactions X with
          ActiveInteractor := none
          bIsInteractionActive := false
          Broadcasts := (w.Interactions X).Broadcasts ++ [.InteractionEnded (some J)] }
      else
        { w.Interactions X with
          Broadcasts := (w.Interactions X).Broadcasts ++ [.InteractionEnded (some J)] } := by
  cases hc : (w.Interactions X).bIsContinuousInteraction <;>
    simp [Multicast_TerminateInteraction, UXRInteractionComponent.EndInteraction,
      UXRInteractionComponent.SetActiveInteractor, hc]

theorem Multicast_TerminateInteraction_interactor (J : InteractorId) (X : InteractionId)
    (w : XRWorld) :
    (Multicast_TerminateInteraction J (some X) w).Interactors J =
      { w.Interactors J with
        ActiveInteractionComponents := Remove X (w.Interactors J).ActiveInteractionComponents
        Broadcasts := (w.Interactors J).Broadcasts ++ [.StoppedInteracting X] } := by
  simp [Multicast_TerminateInteraction]

theorem Multicast_TerminateInteraction_other_interactor (I J : InteractorId)
    (X : InteractionId) (w : XRWorld) (h : I ≠ J) :
    (Multicast_TerminateInteraction J (some X) w).Interactors I = w.Interactors I := by
  simp [Multicast_TerminateInteraction, Function.update_apply, h]

/-- A start request that is carried out runs the execute step, directly or after terminating
the holder, on a world in which the interaction is continuous or not as before. -/
theorem StartXRInteraction_proceeds (I : InteractorId) (X : InteractionId) (w : XRWorld)
    (hp : StartXRInteractionProceeds I X w = true) :
    ∃ w1, StartXRInteraction I (some X) w = Multicast_ExecuteInteraction I (some X) w1 ∧
      (w1.Interactions X).bIsContinuousInteraction =
        (w.Interactions X).bIsContinuousInteraction := by
  unfold StartXRInteraction
  unfold StartXRInteractionProceeds at hp
  cases ha : (w.Interactions X).IsInteractionActive
  · exact ⟨w, by simp [Server_ExecuteInteraction, ha], rfl⟩
  · rcases hj : (w.Interactions X).ActiveInteractor with _ | J
    · exact ⟨w, by simp [Server_ExecuteInteraction, ha, hj], rfl⟩
    · simp only [ha, hj, Bool.true_and, Bool.not_eq_true', Bool.and_eq_false_imp,
        decide_eq_true_eq, Bool.not_eq_false'] at hp
      have hcond : J = I ∨ (w.Interactions X).bAllowTakeOver = true := by
        by_cases h : J = I
        · exact Or.inl h
        · exact Or.inr (hp h)
      refine ⟨Multicast_TerminateInteraction J (some X) w, ?_, ?_⟩
      · simp [Server_ExecuteInteraction, Server_TerminateInteraction, ha, hj, hcond]
      · rw [Multicast_TerminateInteraction_interaction]
        split <;> rfl


/-! ## The interactor: claims -/

/-- C2 (counterexample): interaction 0 is not continuous; `StartXRInteraction` on interactor 0
is carried out (the start and end notifications of the interaction are raised, as the spec,
section 3, says of a non-continuous interaction), yet afterwards the active interactor of the
interaction is not interactor 0 and the interaction is not in the active list of
interactor 0. -/
theorem start_instant_not_held :
    StartXRInteractionProceeds 0 0 worldInstant = true ∧
      ((StartXRInteraction 0 (some 0) worldInstant).Interactions 0).Broadcasts =
        [.InteractionStarted (some 0), .InteractionEnded (some 0)] ∧
      ((StartXRInteraction 0 (some 0) worldInstant).Interactions 0).ActiveInteractor ≠ some 0 ∧
      0 ∉ ((StartXRInteraction 0 (some 0) worldInstant).Interactors 0).ActiveInteractionComponents := by
  decide

/-- A start of a non-continuous interaction is never refused and runs the execute step on the
world as it is. -/
theorem StartXRInteraction_instant (w : XRWorld) (I : InteractorId) (X : InteractionId)
    (hc : (w.Interactions X).bIsContinuousInteraction = false) :
    StartXRInteractionProceeds I X w = true ∧
      StartXRInteraction I (some X) w = Multicast_ExecuteInteraction I (some X) w := by
  have ha : (w.Interactions X).IsInteractionActive = false := by
    simp [UXRInteractionComponent.IsInteractionActive, hc]
  exact ⟨by simp [StartXRInteractionProceeds, ha],
    by simp [StartXRInteraction, ha, Server_ExecuteInteraction]⟩

/-- C2 (amended): for every interactor `I` and interaction `X`, after a `StartXRInteraction(X)`
on `I` that is carried out.  If `X` is continuous, the active interactor of `X` is `I` and `X`
is in the active list of `I`; after a following `StopXRInteraction(X)` on `I` the active
interactor of `X` is null, so no longer `I`, and `X` is not in the active list of `I`.  If `X`
is not continuous, the start (which is never refused) raises the started and the ended
notification of `X` at once and leaves the active interactor and the active flag of `X` and
the active list of `I` as they were, so it does not make `I` the holder; the following
`StopXRInteraction(X)` is discarded. -/
theorem start_stop_by_kind (w : XRWorld) (I : InteractorId) (X : InteractionId)
    (hp : StartXRInteractionProceeds I X w = true) :
    ((w.Interactions X).bIsContinuousInteraction = true →
      ((StartXRInteraction I (some X) w).Interactions X).ActiveInteractor = some I ∧
      X ∈ ((StartXRInteraction I (some X) w).Interactors I).ActiveInteractionComponents ∧
      ((StopXRInteraction I (some X) (StartXRInteraction I (some X) w)).Interactions
        X).ActiveInteractor = none ∧
      ((StopXRInteraction I (some X) (StartXRInteraction I (some X) w)).Interactions
        X).ActiveInteractor ≠ some I ∧
      X ∉ ((StopXRInteraction I (some X) (StartXRInteraction I (some X) w)).Interactors
        I).ActiveInteractionComponents) ∧
    ((w.Interactions X).bIsContinuousInteraction = false →
      ((StartXRInteraction I (some X) w).Interactions X).ActiveInteractor =
        (w.Interactions X).ActiveInteractor ∧
      ((StartXRInteraction I (some X) w).Interactions X).bIsInteractionActive =
        (w.Interactions X).bIsInteractionActive ∧
      ((StartXRInteraction I (some X) w).Interactors I).ActiveInteractionComponents =
        (w.Interactors I).ActiveInteractionComponents ∧
      ((StartXRInteraction I (some X) w).Interactions X).Broadcasts =
        (w.Interactions X).Broadcasts ++
          [.InteractionStarted (some I), .InteractionEnded (some I)] ∧
      StopXRInteraction I (some X) (StartXRInteraction I (some X) w) =
        StartXRInteraction I (some X) w) := by
  constructor
  · intro hc
    obtain ⟨w1, hs, hc1⟩ := StartXRInteraction_proceeds I X w hp
    rw [hc] at hc1
    have hx := Multicast_ExecuteInteraction_interaction I X w1
    have hi := Multicast_ExecuteInteraction_interactor I X w1
    rw [← hs] at hx hi
    simp only [hc1, if_true] at hx hi
    have hact : ((StartXRInteraction I (some X) w).Interactions X).IsInteractionActive =
        true := by
      rw [hx]
      simp [UXRInteractionComponent.IsInteractionActive, hc1]
    have hstop : StopXRInteraction I (some X) (StartXRInteraction I (some X) w) =
        Multicast_TerminateInteraction I (some X) (StartXRInteraction I (some X) w) := by
      simp [StopXRInteraction, hact, Server_TerminateInteraction]
    have hcont : ((StartXRInteraction I (some X) w).Interactions X).bIsContinuousInteraction
        = true := by
      rw [hx]
    have hnone : ((StopXRInteraction I (some X) (StartXRInteraction I (some X) w)).Interactions
        X).ActiveInteractor = none := by
      rw [hstop, Multicast_TerminateInteraction_interaction]
      simp [hcont]
    refine ⟨by rw [hx], ?_, hnone, by simp [hnone], ?_⟩
    · rw [hi]
      exact mem_AddUnique X _
    · rw [hstop, Multicast_TerminateInteraction_interactor]
      exact not_mem_Remove X _
  · intro hc
    have hs := (StartXRInteraction_instant w I X hc).2
    have hx := Multicast_ExecuteInteraction_interaction I X w
    have hi := Multicast_ExecuteInteraction_interactor I X w
    rw [← hs] at hx hi
    simp only [hc, Bool.false_eq_true, if_false] at hx hi
    have hact : ((StartXRInteraction I (some X) w).Interactions X).IsInteractionActive =
        false := by
      rw [hx]
      simp [UXRInteractionComponent.IsInteractionActive, hc]
    refine ⟨by rw [hx], by rw [hx], by rw [hi], by rw [hx], ?_⟩
    simp [StopXRInteraction, hact]

/-- C2 (witness): the amended statement at a world where interaction 4 is continuous and
free. -/
theorem start_stop_by_kind_witness :
    ((worldTwoPriorities.Interactions 4).bIsContinuousInteraction = true →
      ((StartXRInteraction 0 (some 4) worldTwoPriorities).Interactions 4).ActiveInteractor =
        some 0 ∧
      4 ∈ ((StartXRInteraction 0 (some 4) worldTwoPriorities).Interactors
        0).ActiveInteractionComponents ∧
      ((StopXRInteraction 0 (some 4)
        (StartXRInteraction 0 (some 4) worldTwoPriorities)).Interactions 4).ActiveInteractor =
        none ∧
      ((StopXRInteraction 0 (some 4)
        (StartXRInteraction 0 (some 4) worldTwoPriorities)).Interactions 4).ActiveInteractor ≠
        some 0 ∧
      4 ∉ ((StopXRInteraction 0 (some 4)
        (StartXRInteraction 0 (some 4) worldTwoPriorities)).Interactors
        0).ActiveInteractionComponents) ∧
    ((worldTwoPriorities.Interactions 4).bIsContinuousInteraction = false →
      ((StartXRInteraction 0 (some 4) worldTwoPriorities).Interactions 4).ActiveInteractor =
        (worldTwoPriorities.Interactions 4).ActiveInteractor ∧
      ((StartXRInteraction 0 (some 4) worldTwoPriorities).Interactions
        4).bIsInteractionActive =
        (worldTwoPriorities.Interactions 4).bIsInteractionActive ∧
      ((StartXRInteraction 0 (some 4) worldTwoPriorities).Interactors
        0).ActiveInteractionComponents =
        (worldTwoPriorities.Interactors 0).ActiveInteractionComponents ∧
      ((StartXRInteraction 0 (some 4) worldTwoPriorities).Interactions 4).Broadcasts =
        (worldTwoPriorities.Interactions 4).Broadcasts ++
          [.InteractionStarted (some 0), .InteractionEnded (some 0)] ∧
      StopXRInteraction 0 (some 4) (StartXRInteraction 0 (some 4) worldTwoPriorities) =
        StartXRInteraction 0 (some 4) worldTwoPriorities) :=
  start_stop_by_kind worldTwoPriorities 0 4 (by decide)

/-- C3: for every continuous interaction `X` held by interactor `J` (so `X` is in the active
list of `J`) and every other interactor `I` (whose active list does not contain `X`),
`StartXRInteraction(X)` on `I` makes `I` the holder exactly when `X` allows take-over.  When
it does, the holder `J` is terminated first (the ended notification for `J` precedes the
started notification for `I`, and `J` raises its stopped notification), `X` leaves the active
list of `J` and joins that of `I`.  When it does not, the world is unchanged: `J` is still the
holder, `X` is still in the active list of `J` and not in that of `I`. -/
theorem start_held_by_other (w : XRWorld) (I J : InteractorId) (X : InteractionId)
    (hc : (w.Interactions X).bIsContinuousInteraction = true)
    (ha : (w.Interactions X).bIsInteractionActive = true)
    (hJ : (w.Interactions X).ActiveInteractor = some J) (hIJ : I ≠ J)
    (hXJ : X ∈ (w.Interactors J).ActiveInteractionComponents)
    (hXI : X ∉ (w.Interactors I).ActiveInteractionComponents) :
    (((StartXRInteraction I (some X) w).Interactions X).ActiveInteractor = some I ↔
        (w.Interactions X).bAllowTakeOver = true) ∧
      ((w.Interactions X).bAllowTakeOver = true →
        X ∉ ((StartXRInteraction I (some X) w).Interactors J).ActiveInteractionComponents ∧
        X ∈ ((StartXRInteraction I (some X) w).Interactors I).ActiveInteractionComponents ∧
        ((StartXRInteraction I (some X) w).Interactions X).Broadcasts =
          (w.Interactions X).Broadcasts ++
            [.InteractionEnded (some J), .InteractionStarted (some I)] ∧
        ((StartXRInteraction I (some X) w).Interactors J).Broadcasts =
          (w.Interactors J).Broadcasts ++ [.StoppedInteracting X]) ∧
      ((w.Interactions X).bAllowTakeOver = false →
        StartXRInteraction I (some X) w = w ∧
        ((StartXRInteraction I (some X) w).Interactions X).ActiveInteractor = some J ∧
        X ∈ ((StartXRInteraction I (some X) w).Interactors J).ActiveInteractionComponents ∧
        X ∉ ((StartXRInteraction I (some X) w).Interactors I).ActiveInteractionComponents) := by
  have hact : (w.Interactions X).IsInteractionActive = true := by
    simp [UXRInteractionComponent.IsInteractionActive, hc, ha]
  have hJI : J ≠ I := fun h => hIJ h.symm
  cases ht : (w.Interactions X).bAllowTakeOver
  · have hs : StartXRInteraction I (some X) w = w := by
      simp [StartXRInteraction, hact, hJ, ht, hJI]
    rw [hs]
    refine ⟨?_, ?_, ?_⟩
    · rw [hJ]
      simp [hJI]
    · intro h
      cases h
    · intro _
      exact ⟨rfl, hJ, hXJ, hXI⟩
  · have hs : StartXRInteraction I (some X) w =
        Multicast_ExecuteInteraction I (some X) (Multicast_TerminateInteraction J (some X) w) := by
      simp [StartXRInteraction, hact, hJ, ht, Server_ExecuteInteraction,
        Server_TerminateInteraction]
    have hx1 := Multicast_TerminateInteraction_interaction J X w
    simp only [hc, if_true] at hx1
    have hc1 : ((Multicast_TerminateInteraction J (some X) w).Interactions
        X).bIsContinuousInteraction = true := by
      rw [hx1]
    have hx := Multicast_ExecuteInteraction_interaction I X
      (Multicast_TerminateInteraction J (some X) w)
    have hi := Multicast_ExecuteInteraction_interactor I X
      (Multicast_TerminateInteraction J (some X) w)
    have hj := Multicast_ExecuteInteraction_other_interactor I J X
      (Multicast_TerminateInteraction J (some X) w) hJI
    rw [← hs] at hx hi hj
    simp only [hc1, if_true] at hx hi
    rw [Multicast_TerminateInteraction_interactor] at hj
    refine ⟨?_, ?_, ?_⟩
    · rw [hx]
      simp
    · intro _
      refine ⟨?_, ?_, ?_, ?_⟩
      · rw [hj]
        exact not_mem_Remove X _
      · rw [hi]
        exact mem_AddUnique X _
      · rw [hx, hx1]
        simp
      · rw [hj]
    · intro h
      cases h

/-- C3 (witness): the statement at a world where interactor 1 holds interaction 2, which
forbids take-over, and interactor 0 starts it. -/
theorem start_held_by_other_witness :
    (((StartXRInteraction 0 (some 2) worldHeld).Interactions 2).ActiveInteractor = some 0 ↔
        (worldHeld.Interactions 2).bAllowTakeOver = true) ∧
      ((worldHeld.Interactions 2).bAllowTakeOver = true →
        2 ∉ ((StartXRInteraction 0 (some 2) worldHeld).Interactors
          1).ActiveInteractionComponents ∧
        2 ∈ ((StartXRInteraction 0 (some 2) worldHeld).Interactors
          0).ActiveInteractionComponents ∧
        ((StartXRInteraction 0 (some 2) worldHeld).Interactions 2).Broadcasts =
          (worldHeld.Interactions 2).Broadcasts ++
            [.InteractionEnded (some 1), .InteractionStarted (some 0)] ∧
        ((StartXRInteraction 0 (some 2) worldHeld).Interactors 1).Broadcasts =
          (worldHeld.Interactors 1).Broadcasts ++ [.StoppedInteracting 2]) ∧
      ((worldHeld.Interactions 2).bAllowTakeOver = false →
        StartXRInteraction 0 (some 2) worldHeld = worldHeld ∧
        ((StartXRInteraction 0 (some 2) worldHeld).Interactions 2).ActiveInteractor = some 1 ∧
        2 ∈ ((StartXRInteraction 0 (some 2) worldHeld).Interactors
          1).ActiveInteractionComponents ∧
        2 ∉ ((StartXRInteraction 0 (some 2) worldHeld).Interactors
          0).ActiveInteractionComponents) :=
  start_held_by_other worldHeld 0 1 2 (by decide) (by decide) (by decide) (by decide)
    (by decide) (by decide)


theorem mem_AvailableInteractions (w : XRWorld) (A : ActorId) (X : InteractionId) :
    X ∈ AvailableInteractions A w ↔
      X ∈ (w.Actors A).XRInteractionComponents ∧
        (w.Interactions X).IsInteractionActive = false := by
  simp [AvailableInteractions]

theorem StartXRInteraction_available (w : XRWorld) (I : InteractorId) (X : InteractionId)
    (h : (w.Interactions X).IsInteractionActive = false) :
    StartXRInteraction I (some X) w = Multicast_ExecuteInteraction I (some X) w := by
  simp [StartXRInteraction, h, Server_ExecuteInteraction]

/-- What follows from `GetClosestXRInteractionActor` answering `A`: `A` is a qualifying
overlapping actor with the nearest root, and the interaction selected on it is a not-yet-active
one of lowest priority value, which `AutoStartXRInteraction` starts. -/
theorem closest_actor_selection (w : XRWorld) (I : InteractorId) (A : ActorId)
    (hA : GetClosestXRInteractionActor I w = some A) :
    (A ∈ GetAllOverlappingActors I w ∧ IsQualifyingActor I A w = true ∧
      ∀ B ∈ GetAllOverlappingActors I w, IsQualifyingActor I B w = true →
        w.rootDistSquared I A ≤ w.rootDistSquared I B) ∧
    (∀ X ∈ (w.Actors A).XRInteractionComponents,
      (w.Interactions X).IsInteractionActive = false →
      ∃ S, CanInteract I w = some S ∧ S ∈ (w.Actors A).XRInteractionComponents ∧
        (w.Interactions S).IsInteractionActive = false ∧
        (∀ Y ∈ (w.Actors A).XRInteractionComponents,
          (w.Interactions Y).IsInteractionActive = false → w.priority S ≤ w.priority Y) ∧
        AutoStartXRInteraction I w = StartXRInteraction I (some S) w ∧
        ((AutoStartXRInteraction I w).Interactors I).Broadcasts =
          (w.Interactors I).Broadcasts ++ [.StartedInteracting S] ∧
        ((AutoStartXRInteraction I w).Interactions S).Broadcasts =
          (w.Interactions S).Broadcasts ++ .InteractionStarted (some I) ::
            (if (w.Interactions S).bIsContinuousInteraction then []
              else [.InteractionEnded (some I)]) ∧
        ((w.Interactions S).bIsContinuousInteraction = true →
          ((AutoStartXRInteraction I w).Interactions S).ActiveInteractor = some I ∧
          S ∈ ((AutoStartXRInteraction I w).Interactors I).ActiveInteractionComponents)) ∧
    (∀ X1 X2, ((w.Actors A).XRInteractionComponents = [X1, X2] ∨
        (w.Actors A).XRInteractionComponents = [X2, X1]) →
      w.priority X1 = 1 → w.priority X2 = 2 →
      (w.Interactions X1).IsInteractionActive = false →
      (w.Interactions X2).IsInteractionActive = false →
      CanInteract I w = some X1 ∧
        AutoStartXRInteraction I w = StartXRInteraction I (some X1) w) := by
  have hcan : CanInteract I w = firstMinBy w.priority (AvailableInteractions A w) := by
    simp [CanInteract, hA]
  have hsel : ∀ X ∈ (w.Actors A).XRInteractionComponents,
      (w.Interactions X).IsInteractionActive = false →
      ∃ S, CanInteract I w = some S ∧ S ∈ (w.Actors A).XRInteractionComponents ∧
        (w.Interactions S).IsInteractionActive = false ∧
        (∀ Y ∈ (w.Actors A).XRInteractionComponents,
          (w.Interactions Y).IsInteractionActive = false → w.priority S ≤ w.priority Y) ∧
        AutoStartXRInteraction I w = StartXRInteraction I (some S) w := by
    intro X hX hXa
    obtain ⟨S, hS⟩ := firstMinBy_some_of_mem w.priority (AvailableInteractions A w) X
      ((mem_AvailableInteractions w A X).2 ⟨hX, hXa⟩)
    obtain ⟨hSmem, hSle⟩ := firstMinBy_mem_le w.priority _ S hS
    obtain ⟨hSA, hSa⟩ := (mem_AvailableInteractions w A S).1 hSmem
    refine ⟨S, hcan.trans hS, hSA, hSa, ?_, ?_⟩
    · intro Y hY hYa
      exact hSle Y ((mem_AvailableInteractions w A Y).2 ⟨hY, hYa⟩)
    · simp [AutoStartXRInteraction, hcan, hS]
  refine ⟨?_, ?_, ?_⟩
  · obtain ⟨hmem, hle⟩ := firstMinBy_mem_le (w.rootDistSquared I) _ A hA
    rw [List.mem_filter] at hmem
    refine ⟨hmem.1, hmem.2, ?_⟩
    intro B hB hBq
    exact hle B (List.mem_filter.2 ⟨hB, hBq⟩)
  · intro X hX hXa
    obtain ⟨S, hS, hSA, hSa, hSle, hauto⟩ := hsel X hX hXa
    have hexec := StartXRInteraction_available w I S hSa
    have hx := Multicast_ExecuteInteraction_interaction I S w
    have hi := Multicast_ExecuteInteraction_interactor I S w
    rw [← hexec, ← hauto] at hx hi
    refine ⟨S, hS, hSA, hSa, hSle, hauto, ?_, ?_, ?_⟩
    · rw [hi]
    · rw [hx]
      cases (w.Interactions S).bIsContinuousInteraction <;> simp
    · intro hc
      rw [hx, hi]
      simp only [hc, if_true]
      exact ⟨trivial, mem_AddUnique S _⟩
  · intro X1 X2 hl h1 h2 ha1 ha2
    have hX1 : X1 ∈ (w.Actors A).XRInteractionComponents := by
      rcases hl with hl | hl <;> simp [hl]
    obtain ⟨S, hS, hSA, _, hSle, hauto⟩ := hsel X1 hX1 ha1
    have hle := hSle X1 hX1 ha1
    have hSX : S = X1 := by
      have hor : S = X1 ∨ S = X2 := by
        rcases hl with hl | hl
        · simpa [hl] using hSA
        · have := hSA
          rw [hl] at this
          simp at this
          exact this.symm
      rcases hor with h | h
      · exact h
      · rw [h, h1, h2] at hle
        omega
    rw [← hSX]
    exact ⟨hS, hauto⟩

/-- C1: for every interactor `I` overlapping at least one qualifying actor,
`GetClosestXRInteractionActor` answers an actor `A` that qualifies, overlaps `I` and has its
root nearest to `I` among the qualifying overlapping actors.  If `A` has an interaction that is
not yet active, `AutoStartXRInteraction` starts an interaction `S` of `A` that is not yet
active and whose priority value is lowest among the not-yet-active interactions of `A`: the
started notifications are raised and, when `S` is continuous, `I` becomes its holder.  With two
interactions of priority 1 and 2 on `A`, in either order, the one with priority 1 is
started. -/
theorem AutoStartXRInteraction_lowest_priority (w : XRWorld) (I : InteractorId) (B : ActorId)
    (hB : B ∈ GetAllOverlappingActors I w) (hBq : IsQualifyingActor I B w = true) :
    ∃ A, GetClosestXRInteractionActor I w = some A ∧
    (A ∈ GetAllOverlappingActors I w ∧ IsQualifyingActor I A w = true ∧
      ∀ B ∈ GetAllOverlappingActors I w, IsQualifyingActor I B w = true →
        w.rootDistSquared I A ≤ w.rootDistSquared I B) ∧
    (∀ X ∈ (w.Actors A).XRInteractionComponents,
      (w.Interactions X).IsInteractionActive = false →
      ∃ S, CanInteract I w = some S ∧ S ∈ (w.Actors A).XRInteractionComponents ∧
        (w.Interactions S).IsInteractionActive = false ∧
        (∀ Y ∈ (w.Actors A).XRInteractionComponents,
          (w.Interactions Y).IsInteractionActive = false → w.priority S ≤ w.priority Y) ∧
        AutoStartXRInteraction I w = StartXRInteraction I (some S) w ∧
        ((AutoStartXRInteraction I w).Interactors I).Broadcasts =
          (w.Interactors I).Broadcasts ++ [.StartedInteracting S] ∧
        ((AutoStartXRInteraction I w).Interactions S).Broadcasts =
          (w.Interactions S).Broadcasts ++ .InteractionStarted (some I) ::
            (if (w.Interactions S).bIsContinuousInteraction then []
              else [.InteractionEnded (some I)]) ∧
        ((w.Interactions S).bIsContinuousInteraction = true →
          ((AutoStartXRInteraction I w).Interactions S).ActiveInteractor = some I ∧
          S ∈ ((AutoStartXRInteraction I w).Interactors I).ActiveInteractionComponents)) ∧
    (∀ X1 X2, ((w.Actors A).XRInteractionComponents = [X1, X2] ∨
        (w.Actors A).XRInteractionComponents = [X2, X1]) →
      w.priority X1 = 1 → w.priority X2 = 2 →
      (w.Interactions X1).IsInteractionActive = false →
      (w.Interactions X2).IsInteractionActive = false →
      CanInteract I w = some X1 ∧
        AutoStartXRInteraction I w = StartXRInteraction I (some X1) w) := by
  obtain ⟨A, hA⟩ := firstMinBy_some_of_mem (w.rootDistSquared I)
    ((GetAllOverlappingActors I w).filter fun A => IsQualifyingActor I A w) B
    (List.mem_filter.2 ⟨hB, hBq⟩)
  exact ⟨A, hA, closest_actor_selection w I A hA⟩

/-- C1 (witness): interactor 0 overlaps the far actor 7 with an interaction of priority 0 and
the near actor 3 with interactions of priority 2 and 1, listed in that order; the interaction
of priority 1 is the one selected and held after `AutoStartXRInteraction`. -/
theorem AutoStartXRInteraction_lowest_priority_witness :
    CanInteract 0 worldTwoPriorities = some 4 ∧
    ((AutoStartXRInteraction 0 worldTwoPriorities).Interactions 4).ActiveInteractor = some 0 ∧
    ∃ A, GetClosestXRInteractionActor 0 worldTwoPriorities = some A ∧
    (A ∈ GetAllOverlappingActors 0 worldTwoPriorities ∧
      IsQualifyingActor 0 A worldTwoPriorities = true ∧
      ∀ B ∈ GetAllOverlappingActors 0 worldTwoPriorities,
        IsQualifyingActor 0 B worldTwoPriorities = true →
        worldTwoPriorities.rootDistSquared 0 A ≤ worldTwoPriorities.rootDistSquared 0 B) ∧
    (∀ X ∈ (worldTwoPriorities.Actors A).XRInteractionComponents,
      (worldTwoPriorities.Interactions X).IsInteractionActive = false →
      ∃ S, CanInteract 0 worldTwoPriorities = some S ∧
        S ∈ (worldTwoPriorities.Actors A).XRInteractionComponents ∧
        (worldTwoPriorities.Interactions S).IsInteractionActive = false ∧
        (∀ Y ∈ (worldTwoPriorities.Actors A).XRInteractionComponents,
          (worldTwoPriorities.Interactions Y).IsInteractionActive = false →
          worldTwoPriorities.priority S ≤ worldTwoPriorities.priority Y) ∧
        AutoStartXRInteraction 0 worldTwoPriorities =
          StartXRInteraction 0 (some S) worldTwoPriorities ∧
        ((AutoStartXRInteraction 0 worldTwoPriorities).Interactors 0).Broadcasts =
          (worldTwoPriorities.Interactors 0).Broadcasts ++ [.StartedInteracting S] ∧
        ((AutoStartXRInteraction 0 worldTwoPriorities).Interactions S).Broadcasts =
          (worldTwoPriorities.Interactions S).Broadcasts ++ .InteractionStarted (some 0) ::
            (if (worldTwoPriorities.Interactions S).bIsContinuousInteraction then []
              else [.InteractionEnded (some 0)]) ∧
        ((worldTwoPriorities.Interactions S).bIsContinuousInteraction = true →
          ((AutoStartXRInteraction 0 worldTwoPriorities).Interactions S).ActiveInteractor =
            some 0 ∧
          S ∈ ((AutoStartXRInteraction 0 worldTwoPriorities).Interactors
            0).ActiveInteractionComponents)) ∧
    (∀ X1 X2, ((worldTwoPriorities.Actors A).XRInteractionComponents = [X1, X2] ∨
        (worldTwoPriorities.Actors A).XRInteractionComponents = [X2, X1]) →
      worldTwoPriorities.priority X1 = 1 → worldTwoPriorities.priority X2 = 2 →
      (worldTwoPriorities.Interactions X1).IsInteractionActive = false →
      (worldTwoPriorities.Interactions X2).IsInteractionActive = false →
      CanInteract 0 worldTwoPriorities = some X1 ∧
        AutoStartXRInteraction 0 worldTwoPriorities =
          StartXRInteraction 0 (some X1) worldTwoPriorities) :=
  ⟨by decide, by decide,
    AutoStartXRInteraction_lowest_priority worldTwoPriorities 0 7 (by decide) (by decide)⟩

theorem firstMaxBy_none (key : Nat → Int) (l : List Nat) (h : firstMaxBy key l = none) :
    l = [] := by
  cases l with
  | nil => rfl
  | cons x xs =>
    obtain ⟨a, ha⟩ := firstMaxBy_some_of_ne_nil key (x :: xs) (List.cons_ne_nil _ _)
    rw [h] at ha
    cases ha

/-- C10: `StopXRInteraction` whose argument is null, or is an interaction that is not
currently active, returns the world it was given: the active list of the interactor and the
active interactor and active flag of every interaction are as before. -/
theorem StopXRInteraction_discards (w : XRWorld) (I : InteractorId)
    (InXRInteraction : Option InteractionId)
    (h : InXRInteraction = none ∨
      ∃ X, InXRInteraction = some X ∧ (w.Interactions X).IsInteractionActive = false) :
    StopXRInteraction I InXRInteraction w = w ∧
      ((StopXRInteraction I InXRInteraction w).Interactors I).ActiveInteractionComponents =
        (w.Interactors I).ActiveInteractionComponents ∧
      ∀ X, ((StopXRInteraction I InXRInteraction w).Interactions X).ActiveInteractor =
          (w.Interactions X).ActiveInteractor ∧
        ((StopXRInteraction I InXRInteraction w).Interactions X).bIsInteractionActive =
          (w.Interactions X).bIsInteractionActive := by
  have key : StopXRInteraction I InXRInteraction w = w := by
    rcases h with rfl | ⟨X, rfl, hX⟩
    · rfl
    · simp [StopXRInteraction, hX]
  rw [key]
  exact ⟨rfl, rfl, fun _ => ⟨rfl, rfl⟩⟩

/-- C10 (witness): interactor 0 asks to stop interaction 0, which is not active. -/
theorem StopXRInteraction_discards_witness :
    StopXRInteraction 0 (some 0) worldHeld = worldHeld ∧
      ((StopXRInteraction 0 (some 0) worldHeld).Interactors 0).ActiveInteractionComponents =
        (worldHeld.Interactors 0).ActiveInteractionComponents ∧
      ∀ X, ((StopXRInteraction 0 (some 0) worldHeld).Interactions X).ActiveInteractor =
          (worldHeld.Interactions X).ActiveInteractor ∧
        ((StopXRInteraction 0 (some 0) worldHeld).Interactions X).bIsInteractionActive =
          (worldHeld.Interactions X).bIsInteractionActive :=
  StopXRInteraction_discards worldHeld 0 (some 0) (Or.inr ⟨0, rfl, by decide⟩)

/-! ## The grab: acquisition, modes and release -/

theorem InitializePhysics_created (c : UXRReplicatedPhysicsComponent) (g : GrabWorld)
    (o : AActor) (ho : g.Owner = some o) (hf : o.FindComponentByClass = none) :
    InitializePhysics (some c) g =
      { g with
        Grab := { g.Grab with XRReplicatedPhysicsComponent := some 0 }
        Owner := some { o with
          ReplicatedPhysicsComponents :=
            [if o.bHasAuthority then
              { c with
                bRegistered := true
                bIsActive := true
                bServerReplicatePhysics := true
                PhysicsMeshComponents :=
                  (c.CachePhysicsMeshComponents g.Grab.PhysicsTag o).PhysicsMeshComponents }
            else
              { c with
                bRegistered := true
                bIsActive := true
                PhysicsMeshComponents :=
                  (c.CachePhysicsMeshComponents g.Grab.PhysicsTag o).PhysicsMeshComponents }] } } := by
  have he : o.ReplicatedPhysicsComponents = [] := by
    simpa [AActor.FindComponentByClass] using hf
  cases hauth : o.bHasAuthority <;>
    simp [InitializePhysics, ho, hf, he, hauth,
      UXRReplicatedPhysicsComponent.CachePhysicsMeshComponents,
      UXRReplicatedPhysicsComponent.Server_SetServerReplicatePhysics]

theorem FindComponentByClass_some (o : AActor) (i : Nat) (h : o.FindComponentByClass = some i) :
    i = 0 ∧ ∃ c, o.ReplicatedPhysicsComponents[i]? = some c := by
  unfold AActor.FindComponentByClass at h
  cases hl : o.ReplicatedPhysicsComponents with
  | nil => simp [hl] at h
  | cons c cs =>
    simp [hl] at h
    subst h
    exact ⟨rfl, c, by simp⟩

/-- C11: for a grab whose owner exists and whose helper pointer is still null (its state before
`BeginPlay`): with `bEnablePhysics` true, when a helper is found on the owner or object
creation yields one, `GetPhysicsReplicationComponent` after `BeginPlay` returns a helper of the
owner, either the one found (the owner is unchanged) or a new one added to an owner that had
none; when none is found and creation yields nothing it returns null.  With `bEnablePhysics`
false it returns null and `BeginPlay` changes nothing, so no helper is created. -/
theorem BeginPlay_helper (g : GrabWorld) (n : Option UXRReplicatedPhysicsComponent)
    (o : AActor) (ho : g.Owner = some o)
    (hnull : g.Grab.XRReplicatedPhysicsComponent = none) :
    (g.Grab.bEnablePhysics = true → (o.FindComponentByClass ≠ none ∨ n ≠ none) →
      ∃ i o1 c, GetPhysicsReplicationComponent (BeginPlay n g) = some i ∧
        (BeginPlay n g).Owner = some o1 ∧ o1.ReplicatedPhysicsComponents[i]? = some c ∧
        ((o.FindComponentByClass = some i ∧ o1 = o) ∨
          (o.ReplicatedPhysicsComponents = [] ∧ o1.ReplicatedPhysicsComponents = [c] ∧
            c.bRegistered = true ∧ c.bIsActive = true))) ∧
    (g.Grab.bEnablePhysics = true → o.FindComponentByClass = none → n = none →
      GetPhysicsReplicationComponent (BeginPlay n g) = none ∧
        (BeginPlay n g).Owner = some o) ∧
    (g.Grab.bEnablePhysics = false →
      GetPhysicsReplicationComponent (BeginPlay n g) = none ∧ BeginPlay n g = g) := by
  refine ⟨?_, ?_, ?_⟩
  · intro hp hor
    rcases hf : o.FindComponentByClass with _ | i
    · rcases n with _ | c
      · rcases hor with h | h
        · exact absurd hf h
        · exact absurd rfl h
      · have he : o.ReplicatedPhysicsComponents = [] := by
          simpa [AActor.FindComponentByClass] using hf
        have hb : BeginPlay (some c) g = InitializePhysics (some c) g := by
          simp [BeginPlay, hp]
        rw [hb, InitializePhysics_created c g o ho hf]
        cases hauth : o.bHasAuthority
        · exact ⟨0, _, _, rfl, rfl, rfl, Or.inr ⟨he, rfl, rfl, rfl⟩⟩
        · exact ⟨0, _, _, rfl, rfl, rfl, Or.inr ⟨he, rfl, rfl, rfl⟩⟩
    · have hb : BeginPlay n g = InitializePhysics n g := by
        simp [BeginPlay, hp]
      obtain ⟨_, c, hc⟩ := FindComponentByClass_some o i hf
      rw [hb, InitializePhysics_found n g o i ho hf]
      exact ⟨i, o, c, rfl, ho, hc, Or.inl ⟨rfl, rfl⟩⟩
  · intro hp hf hn
    subst hn
    have hb : BeginPlay none g = InitializePhysics none g := by
      simp [BeginPlay, hp]
    rw [hb, InitializePhysics_nothing g o ho hf hnull]
    exact ⟨hnull, ho⟩
  · intro hp
    have hb : BeginPlay n g = g := by
      simp [BeginPlay, hp]
    rw [hb]
    exact ⟨hnull, rfl⟩

/-- C11 (witness): the statement at a grab in physics mode whose owner has no helper yet and
for which object creation yields a helper. -/
theorem BeginPlay_helper_witness :
    ∃ i o1 c,
      GetPhysicsReplicationComponent (BeginPlay (some {}) grabBeforeBeginPlay) = some i ∧
      (BeginPlay (some {}) grabBeforeBeginPlay).Owner = some o1 ∧
      o1.ReplicatedPhysicsComponents[i]? = some c ∧
      ((AActor.FindComponentByClass
          { RootMesh := some 0, MeshComponents := [{}, { ComponentTags := ["XRPhysics"] }] } =
            some i ∧
          o1 = { RootMesh := some 0,
                 MeshComponents := [{}, { ComponentTags := ["XRPhysics"] }] }) ∨
        ((([] : List UXRReplicatedPhysicsComponent) = []) ∧
          o1.ReplicatedPhysicsComponents = [c] ∧
          c.bRegistered = true ∧ c.bIsActive = true)) :=
  (BeginPlay_helper grabBeforeBeginPlay (some {})
    { RootMesh := some 0, MeshComponents := [{}, { ComponentTags := ["XRPhysics"] }] }
    rfl rfl).1 rfl (Or.inr (by simp))


theorem EndInteraction_kinematic_eq (g : GrabWorld) (J : Option InteractorId) (o : AActor)
    (hp : g.Grab.bEnablePhysics = false) (ho : g.Owner = some o) :
    EndInteraction J g = some
      { g.SuperEndInteraction J with
        Owner := some (o.DetachFromActor grabDetachmentRules) } := by
  have h1 : (g.SuperEndInteraction J).Grab.bEnablePhysics = false := hp
  have h2 : (g.SuperEndInteraction J).Owner = some o := ho
  unfold EndInteraction
  simp only [h1]
  simp [DetachOwningActorFromXRInteractor, h2, grabDetachmentRules]

theorem AttachToComponent_keepWorld (o : AActor) (I : InteractorId) (parent : FTransform) :
    (o.AttachToComponent I parent grabAttachmentRules).WorldTransform = o.WorldTransform := by
  simp [AActor.AttachToComponent, grabAttachmentRules, EAttachmentRule.world]

theorem DetachFromActor_keepWorld (o : AActor) :
    (o.DetachFromActor grabDetachmentRules).WorldTransform = o.WorldTransform := by
  simp [AActor.DetachFromActor, grabDetachmentRules, EDetachmentRule.world]

theorem mem_taggedMeshesFrom (Tag : String) (root : Option MeshId) (ms : List UMeshComponent)
    (k m : Nat) :
    some m ∈ taggedMeshesFrom Tag root k ms ↔
      k ≤ m ∧ root ≠ some m ∧ ∃ mesh, ms[m - k]? = some mesh ∧ Tag ∈ mesh.ComponentTags := by
  induction ms generalizing k with
  | nil => simp [taggedMeshesFrom]
  | cons x xs ih =>
    unfold taggedMeshesFrom
    by_cases hx : Tag ∈ x.ComponentTags ∧ root ≠ some k
    · rw [if_pos hx]
      simp only [List.mem_cons, Option.some.injEq, ih]
      constructor
      · rintro (rfl | ⟨hle, hr, mesh, hmesh, ht⟩)
        · exact ⟨le_refl _, hx.2, x, by simp, hx.1⟩
        · refine ⟨by omega, hr, mesh, ?_, ht⟩
          have : m - k = (m - (k + 1)) + 1 := by omega
          rw [this, List.getElem?_cons_succ]
          exact hmesh
      · rintro ⟨hle, hr, mesh, hmesh, ht⟩
        by_cases hmk : m = k
        · exact Or.inl hmk
        · right
          refine ⟨by omega, hr, mesh, ?_, ht⟩
          have : m - k = (m - (k + 1)) + 1 := by omega
          rw [this, List.getElem?_cons_succ] at hmesh
          exact hmesh
    · rw [if_neg hx]
      simp only [ih]
      constructor
      · rintro ⟨hle, hr, mesh, hmesh, ht⟩
        refine ⟨by omega, hr, mesh, ?_, ht⟩
        have : m - k = (m - (k + 1)) + 1 := by omega
        rw [this, List.getElem?_cons_succ]
        exact hmesh
      · rintro ⟨hle, hr, mesh, hmesh, ht⟩
        have hmk : m ≠ k := by
          rintro rfl
          simp at hmesh
          subst hmesh
          exact hx ⟨ht, hr⟩
        refine ⟨by omega, hr, mesh, ?_, ht⟩
        have : m - k = (m - (k + 1)) + 1 := by omega
        rw [this, List.getElem?_cons_succ] at hmesh
        exact hmesh

theorem mem_CachePhysicsMeshComponents (Tag : String) (o : AActor)
    (c : UXRReplicatedPhysicsComponent) (m : MeshId) :
    some m ∈ (c.CachePhysicsMeshComponents Tag o).PhysicsMeshComponents ↔
      o.RootMesh = some m ∨ ∃ mesh, o.MeshComponents[m]? = some mesh ∧
        Tag ∈ mesh.ComponentTags := by
  simp only [UXRReplicatedPhysicsComponent.CachePhysicsMeshComponents, List.mem_append,
    mem_taggedMeshesFrom, Nat.zero_le, true_and, Nat.sub_zero]
  rcases hr : o.RootMesh with _ | r
  · simp
  · by_cases hrm : r = m
    · subst hrm
      simp
    · have hmr : ¬m = r := fun h => hrm h.symm
      simp [hrm, hmr]

/-- C14 (counterexample): the owner already carries a helper whose cache is empty, and has a
root mesh and a mesh tagged with this grab's `PhysicsTag`; after `InitializePhysics` the
helper the grab points to still has an empty cache, while the tag selects both meshes. -/
theorem found_helper_keeps_its_cache :
    (InitializePhysics (some {}) grabHelperPresent).helper.map
        (fun c => c.PhysicsMeshComponents) = some [] ∧
      PhysicsTagSelection grabHelperPresent = some [some 0, some 1] := by
  decide

/-- C14 (amended): for every owning actor, when `InitializePhysics` creates the helper (none
was present on the owner), the meshes cached in it are the ones this grab's `PhysicsTag`
selects: the root mesh and every mesh of the owner carrying the tag.  When a helper is found
already present on the owner, the grab points to it and its cache is left as it was. -/
theorem InitializePhysics_tag_selection (g : GrabWorld)
    (n : Option UXRReplicatedPhysicsComponent) (o : AActor) (ho : g.Owner = some o) :
    (∀ c, o.FindComponentByClass = none → n = some c →
      ∃ c1, (InitializePhysics n g).helper = some c1 ∧
        some c1.PhysicsMeshComponents = PhysicsTagSelection g ∧
        ∀ m, some m ∈ c1.PhysicsMeshComponents ↔
          o.RootMesh = some m ∨ ∃ mesh, o.MeshComponents[m]? = some mesh ∧
            g.Grab.PhysicsTag ∈ mesh.ComponentTags) ∧
    (∀ i c, o.FindComponentByClass = some i → o.ReplicatedPhysicsComponents[i]? = some c →
      (InitializePhysics n g).helper = some c ∧
        (InitializePhysics n g).Owner = some o) := by
  constructor
  · intro c hf hn
    subst hn
    rw [InitializePhysics_created c g o ho hf]
    cases hauth : o.bHasAuthority
    · refine ⟨_, rfl, ?_, ?_⟩
      · simp [PhysicsTagSelection, ho,
          UXRReplicatedPhysicsComponent.CachePhysicsMeshComponents]
      · intro m
        exact mem_CachePhysicsMeshComponents g.Grab.PhysicsTag o c m
    · refine ⟨_, rfl, ?_, ?_⟩
      · simp [PhysicsTagSelection, ho,
          UXRReplicatedPhysicsComponent.CachePhysicsMeshComponents]
      · intro m
        exact mem_CachePhysicsMeshComponents g.Grab.PhysicsTag o c m
  · intro i c hf hc
    rw [InitializePhysics_found n g o i ho hf]
    exact ⟨by simp [GrabWorld.helper, ho, hc], ho⟩

/-- C14 (witness): the amended statement at a grab whose owner has no helper yet. -/
theorem InitializePhysics_tag_selection_witness :
    ∃ c1, (InitializePhysics (some {}) grabBeforeBeginPlay).helper = some c1 ∧
      some c1.PhysicsMeshComponents = PhysicsTagSelection grabBeforeBeginPlay ∧
      ∀ m, some m ∈ c1.PhysicsMeshComponents ↔
        (some 0 : Option MeshId) = some m ∨
          ∃ mesh, [({} : UMeshComponent), { ComponentTags := ["XRPhysics"] }][m]? = some mesh ∧
            grabBeforeBeginPlay.Grab.PhysicsTag ∈ mesh.ComponentTags :=
  (InitializePhysics_tag_selection grabBeforeBeginPlay (some {})
    { RootMesh := some 0, MeshComponents := [{}, { ComponentTags := ["XRPhysics"] }] }
    rfl).1 {} (by decide) rfl

/-- C15 (failing input): `grabEnabledLate` has an owner with authority, `bEnablePhysics` was
false at `BeginPlay` and is true afterwards, so its helper pointer is null: `StartInteraction`
and `EndInteraction` with a non-null interactor dereference the null helper.  `grabNoOwner`
has no owning actor: both calls dereference the null owner. -/
theorem grab_calls_dereference_null :
    grabEnabledLate.Grab.bEnablePhysics = true ∧
      grabEnabledLate.Grab.XRReplicatedPhysicsComponent = none ∧
      grabEnabledLate.Owner.isSome = true ∧
      StartInteraction (some 0) grabEnabledLate = none ∧
      EndInteraction (some 0) grabEnabledLate = none ∧
      grabNoOwner.Owner.isNone = true ∧
      StartInteraction (some 0) grabNoOwner = none ∧
      EndInteraction (some 0) grabNoOwner = none :=
  ⟨by decide, by decide, by decide, rfl, rfl, by decide, rfl, rfl⟩

/-- C16: in kinematic mode, for a grab whose owner exists, `EndInteraction(J)` leaves the
owner without attachment parent and with its world transform, whatever `J` is (null
included) and whatever the owner was attached to; so `StartInteraction(I)` followed by
`EndInteraction(J)` ends detached, also when `J` differs from `I` and also when the owner had
an attachment before the grab. -/
theorem EndInteraction_kinematic_detaches (g : GrabWorld) (o : AActor)
    (hp : g.Grab.bEnablePhysics = false) (ho : g.Owner = some o) :
    (∀ J, ∃ g2 o2, EndInteraction J g = some g2 ∧ g2.Owner = some o2 ∧
      o2.AttachParent = none ∧ o2.WorldTransform = o.WorldTransform) ∧
    (∀ I J, ∃ g1 g2 o2, StartInteraction (some I) g = some g1 ∧
      EndInteraction J g1 = some g2 ∧ g2.Owner = some o2 ∧
      o2.AttachParent = none ∧ o2.WorldTransform = o.WorldTransform) := by
  constructor
  · intro J
    exact ⟨_, _, EndInteraction_kinematic_eq g J o hp ho, rfl, rfl, DetachFromActor_keepWorld o⟩
  · intro I J
    refine ⟨_, _, _, StartInteraction_kinematic_eq g I o hp ho,
      EndInteraction_kinematic_eq _ J _ hp rfl, rfl, rfl, ?_⟩
    rw [DetachFromActor_keepWorld, AttachToComponent_keepWorld]

/-- C16 (witness): the owner is attached to interactor 9 before the grab; after
`StartInteraction(0)` and `EndInteraction` with any argument it has no attachment parent. -/
theorem EndInteraction_kinematic_detaches_witness :
    (∀ J, ∃ g2 o2, EndInteraction J grabKinematicAttached = some g2 ∧ g2.Owner = some o2 ∧
      o2.AttachParent = none ∧ o2.WorldTransform = {}) ∧
    (∀ I J, ∃ g1 g2 o2, StartInteraction (some I) grabKinematicAttached = some g1 ∧
      EndInteraction J g1 = some g2 ∧ g2.Owner = some o2 ∧
      o2.AttachParent = none ∧ o2.WorldTransform = {}) :=
  EndInteraction_kinematic_detaches grabKinematicAttached { AttachParent := some 9 } rfl rfl


/-! ## Hover bookkeeping: what each call computes -/

theorem hoverInteractions_Actors (I : InteractorId) (b : Bool) (Xs : List InteractionId)
    (w : XRWorld) : (hoverInteractions I b Xs w).Actors = w.Actors := by
  induction Xs generalizing w with
  | nil => rfl
  | cons X Xs ih =>
    simp only [hoverInteractions]
    rw [ih]
    rfl

theorem hoverInteractions_Broadcasts (I : InteractorId) (b : Bool) (Xs : List InteractionId)
    (w : XRWorld) :
    ((hoverInteractions I b Xs w).Interactors I).Broadcasts =
      (w.Interactors I).Broadcasts ++ Xs.map fun X => .HoverStateChanged X b := by
  induction Xs generalizing w with
  | nil => simp [hoverInteractions]
  | cons X Xs ih =>
    simp only [hoverInteractions]
    rw [ih]
    simp [hoverInteraction]

theorem hoverInteractions_not_mem (I : InteractorId) (b : Bool) (Xs : List InteractionId)
    (w : XRWorld) (X : InteractionId) (hX : X ∉ Xs) :
    (hoverInteractions I b Xs w).Interactions X = w.Interactions X := by
  induction Xs generalizing w with
  | nil => rfl
  | cons Y Ys ih =>
    simp only [List.mem_cons, not_or] at hX
    simp only [hoverInteractions]
    rw [ih _ hX.2]
    simp [hoverInteraction, Function.update_apply, hX.1]

theorem hoverInteractions_mem (I : InteractorId) (b : Bool) (Xs : List InteractionId)
    (w : XRWorld) (X : InteractionId) (hnd : Xs.Nodup) (hX : X ∈ Xs) :
    (hoverInteractions I b Xs w).Interactions X =
      (w.Interactions X).HoverInteraction (some I) b := by
  induction Xs generalizing w with
  | nil => cases hX
  | cons Y Ys ih =>
    rw [List.nodup_cons] at hnd
    simp only [hoverInteractions]
    rcases List.mem_cons.1 hX with rfl | hX2
    · rw [hoverInteractions_not_mem I b Ys _ X hnd.1]
      simp [hoverInteraction]
    · have hne : X ≠ Y := by
        rintro rfl
        exact hnd.1 hX2
      rw [ih _ hnd.2 hX2]
      simp [hoverInteraction, Function.update_apply, hne]

theorem hoverInteractions_hovered_false (I : InteractorId) (Xs : List InteractionId)
    (w : XRWorld) (X : InteractionId) (hX : X ∈ Xs) :
    X ∉ ((hoverInteractions I false Xs w).Interactors I).HoveredInteractionComponents := by
  have key : ∀ (Ys : List InteractionId) (v : XRWorld) (Y : InteractionId),
      Y ∈ ((hoverInteractions I false Ys v).Interactors I).HoveredInteractionComponents →
        Y ∈ (v.Interactors I).HoveredInteractionComponents ∧ Y ∉ Ys := by
    intro Ys
    induction Ys with
    | nil =>
      intro v Y h
      exact ⟨h, by simp⟩
    | cons Z Zs ih =>
      intro v Y h
      simp only [hoverInteractions] at h
      obtain ⟨h1, h2⟩ := ih _ Y h
      simp [hoverInteraction, Remove] at h1
      exact ⟨h1.1, by simp [h1.2, h2]⟩
  intro h
  exact (key Xs w X h).2 hX

theorem hoverInteractions_hovered_true (I : InteractorId) (Xs : List InteractionId)
    (w : XRWorld) (X : InteractionId) (hX : X ∈ Xs) :
    X ∈ ((hoverInteractions I true Xs w).Interactors I).HoveredInteractionComponents := by
  have keep : ∀ (Ys : List InteractionId) (v : XRWorld) (Y : InteractionId),
      Y ∈ (v.Interactors I).HoveredInteractionComponents →
        Y ∈ ((hoverInteractions I true Ys v).Interactors I).HoveredInteractionComponents := by
    intro Ys
    induction Ys with
    | nil =>
      intro v Y h
      exact h
    | cons Z Zs ih =>
      intro v Y h
      simp only [hoverInteractions]
      apply ih
      simp only [hoverInteraction, Function.update_same, if_true]
      unfold AddUnique
      split
      · exact h
      · exact List.mem_append_left _ h
  induction Xs generalizing w with
  | nil => cases hX
  | cons Y Ys ih =>
    simp only [hoverInteractions]
    rcases List.mem_cons.1 hX with rfl | hX2
    · apply keep
      simp only [hoverInteraction, Function.update_same, if_true]
      exact mem_AddUnique X _
    · exact ih _ hX2

theorem hoverNotifications_append (X : InteractionId) (l1 l2 : List XRInteractorEvent) :
    hoverNotifications X (l1 ++ l2) = hoverNotifications X l1 ++ hoverNotifications X l2 := by
  induction l1 with
  | nil => rfl
  | cons e es ih =>
    cases e with
    | StartedInteracting Y => simpa [hoverNotifications] using ih
    | StoppedInteracting Y => simpa [hoverNotifications] using ih
    | HoverStateChanged Y b =>
      by_cases h : Y = X
      · simp [hoverNotifications, h, ih]
      · simp [hoverNotifications, h, ih]

theorem hoverNotifications_map_not_mem (X : InteractionId) (b : Bool)
    (Xs : List InteractionId) (hX : X ∉ Xs) :
    hoverNotifications X (Xs.map fun Y => .HoverStateChanged Y b) = [] := by
  induction Xs with
  | nil => rfl
  | cons Y Ys ih =>
    simp only [List.mem_cons, not_or] at hX
    have hne : Y ≠ X := fun h => hX.1 h.symm
    simp [hoverNotifications, hne, ih hX.2]

theorem hoverNotifications_map_mem (X : InteractionId) (b : Bool) (Xs : List InteractionId)
    (hnd : Xs.Nodup) (hX : X ∈ Xs) :
    hoverNotifications X (Xs.map fun Y => .HoverStateChanged Y b) = [b] := by
  induction Xs with
  | nil => cases hX
  | cons Y Ys ih =>
    rw [List.nodup_cons] at hnd
    rcases List.mem_cons.1 hX with rfl | hX2
    · simp [hoverNotifications, hoverNotifications_map_not_mem X b Ys hnd.1]
    · have hne : Y ≠ X := by
        rintro rfl
        exact hnd.1 hX2
      simp [hoverNotifications, hne, ih hnd.2 hX2]

/-! ## Hover bookkeeping: claims -/

/-- C12: for every interactor `I` and every actor `A` (its interaction components being
distinct), after an overlap-begin on `A` each interaction of `A` has hover state true and is in
the hover set of `I`; after the overlap-end that follows, each interaction of `A` has hover
state false and is out of the hover set, `I` has raised exactly two hover-changed notifications
about it, the first with state true and the second with state false, and the interaction has
raised its own hovered notification twice, true then false. -/
theorem overlap_begin_end_hover (w : XRWorld) (I : InteractorId) (A : ActorId)
    (X : InteractionId) (hnd : (w.Actors A).XRInteractionComponents.Nodup)
    (hX : X ∈ (w.Actors A).XRInteractionComponents) :
    ((OnOverlapBegin I (some A) w).Interactions X).bHoverState = true ∧
      X ∈ ((OnOverlapBegin I (some A) w).Interactors I).HoveredInteractionComponents ∧
      ((OnOverlapEnd I (some A) (OnOverlapBegin I (some A) w)).Interactions X).bHoverState =
        false ∧
      X ∉ ((OnOverlapEnd I (some A) (OnOverlapBegin I (some A) w)).Interactors
        I).HoveredInteractionComponents ∧
      hoverNotifications X
          ((OnOverlapEnd I (some A) (OnOverlapBegin I (some A) w)).Interactors I).Broadcasts =
        hoverNotifications X (w.Interactors I).Broadcasts ++ [true, false] ∧
      ((OnOverlapEnd I (some A) (OnOverlapBegin I (some A) w)).Interactions X).Broadcasts =
        (w.Interactions X).Broadcasts ++
          [.InteractionHovered (some I) true, .InteractionHovered (some I) false] := by
  have hA : (OnOverlapBegin I (some A) w).Actors A = w.Actors A := by
    simp [OnOverlapBegin, HoverActor, hoverInteractions_Actors]
  have hb : OnOverlapBegin I (some A) w =
      hoverInteractions I true (w.Actors A).XRInteractionComponents w := rfl
  have he : OnOverlapEnd I (some A) (OnOverlapBegin I (some A) w) =
      hoverInteractions I false (w.Actors A).XRInteractionComponents
        (OnOverlapBegin I (some A) w) := by
    simp [OnOverlapEnd, HoverActor, hA]
  have hx1 := hoverInteractions_mem I true _ w X hnd hX
  rw [← hb] at hx1
  have hx2 := hoverInteractions_mem I false _ (OnOverlapBegin I (some A) w) X hnd hX
  rw [← he] at hx2
  refine ⟨?_, ?_, ?_, ?_, ?_, ?_⟩
  · rw [hx1]
    rfl
  · rw [hb]
    exact hoverInteractions_hovered_true I _ w X hX
  · rw [hx2]
    rfl
  · rw [he]
    exact hoverInteractions_hovered_false I _ _ X hX
  · rw [he, hoverInteractions_Broadcasts, hb, hoverInteractions_Broadcasts,
      hoverNotifications_append, hoverNotifications_append,
      hoverNotifications_map_mem X true _ hnd hX, hoverNotifications_map_mem X false _ hnd hX]
    simp
  · rw [hx2, hx1]
    simp [UXRInteractionComponent.HoverInteraction]

/-- C12 (witness): interactor 0 and actor 3 of `worldTwoPriorities`, at interaction 4. -/
theorem overlap_begin_end_hover_witness :
    ((OnOverlapBegin 0 (some 3) worldTwoPriorities).Interactions 4).bHoverState = true ∧
      4 ∈ ((OnOverlapBegin 0 (some 3) worldTwoPriorities).Interactors
        0).HoveredInteractionComponents ∧
      ((OnOverlapEnd 0 (some 3)
        (OnOverlapBegin 0 (some 3) worldTwoPriorities)).Interactions 4).bHoverState = false ∧
      4 ∉ ((OnOverlapEnd 0 (some 3)
        (OnOverlapBegin 0 (some 3) worldTwoPriorities)).Interactors
        0).HoveredInteractionComponents ∧
      hoverNotifications 4
          ((OnOverlapEnd 0 (some 3)
            (OnOverlapBegin 0 (some 3) worldTwoPriorities)).Interactors 0).Broadcasts =
        hoverNotifications 4 (worldTwoPriorities.Interactors 0).Broadcasts ++ [true, false] ∧
      ((OnOverlapEnd 0 (some 3)
        (OnOverlapBegin 0 (some 3) worldTwoPriorities)).Interactions 4).Broadcasts =
        (worldTwoPriorities.Interactions 4).Broadcasts ++
          [.InteractionHovered (some 0) true, .InteractionHovered (some 0) false] :=
  overlap_begin_end_hover worldTwoPriorities 0 3 4 (by decide) (by decide)


end XRToolkit
